import Mathlib

/-!
# InteractiveDAW — verification of the real-time decision pipeline

Shallow embedding of the InteractiveDAW repository (laptop_node and
rasp_pi_node) in Lean 4, together with proofs about the distance-to-note
mapping (`laptop_node/mapping.py`), the tick-driven music router
(`laptop_node/music_router.py`), the router-side sensor receive buffer
(`laptop_node/pi_client.py`), the hit detector
(`rasp_pi_node/hit_detect.py`), the bounded outbound OSC queue
(`rasp_pi_node/osc_sender.py`) and the fixed-rate scheduling loops
(`laptop_node/main.py`, `rasp_pi_node/main.py`).

Modelling conventions:
* Python floats are modelled as exact rationals (`ℚ`); Python ints as `ℤ`.
* Python `int(x)` truncates toward zero (`pyTrunc`); Python `round(x)`
  rounds half to even (`pyRound`).
* Stateful methods become pure functions `state → state × output`; the
  MIDI and log side effects of a router tick are collected in a `List REvent`
  in emission order.
-/

/-- Python `int(x)` applied to a float: truncation toward zero. -/
def pyTrunc (x : ℚ) : ℤ := if 0 ≤ x then ⌊x⌋ else ⌈x⌉

/-- Python 3 `round(x)` on floats: round half to even (banker's rounding).
Written in terms of the floor and the fractional part `x - ⌊x⌋`. -/
def pyRound (x : ℚ) : ℤ :=
  if x - ⌊x⌋ < 1/2 then ⌊x⌋
  else if 1/2 < x - ⌊x⌋ then ⌊x⌋ + 1
  else if ⌊x⌋ % 2 = 0 then ⌊x⌋ else ⌊x⌋ + 1

/-! ## `laptop_node/mapping.py` -/

/-- `NoteMapping`: parameters of the linear distance-to-note mapping. -/
structure NoteMapping where
  d_min_cm : ℚ
  d_max_cm : ℚ
  note_lo : ℤ
  note_hi : ℤ
deriving DecidableEq

/-- The constructor validation performed in `NoteMapping.__post_init__`
(raising `ValueError` is modelled as the predicate failing). -/
def NoteMapping.Valid (m : NoteMapping) : Prop :=
  m.d_min_cm < m.d_max_cm ∧ m.note_lo ≤ m.note_hi

instance (m : NoteMapping) : Decidable m.Valid := by
  unfold NoteMapping.Valid
  infer_instance

/-- `clamp_distance`: clamp a distance reading into the configured range. -/
def clamp_distance (dist_cm : ℚ) (m : NoteMapping) : ℚ :=
  if dist_cm < m.d_min_cm then m.d_min_cm
  else if dist_cm > m.d_max_cm then m.d_max_cm
  else dist_cm

/-- `interpolate_note`: interpolate a floating-point MIDI note from the
distance. -/
def interpolate_note (dist_cm : ℚ) (m : NoteMapping) : ℚ :=
  if m.d_max_cm - m.d_min_cm = 0 ∨ m.note_hi - m.note_lo = 0 then (m.note_lo : ℚ)
  else (m.note_lo : ℚ)
    + (dist_cm - m.d_min_cm) / (m.d_max_cm - m.d_min_cm) * ((m.note_hi - m.note_lo : ℤ) : ℚ)

/-- `quantize_note`: map a distance in centimetres to an integer MIDI note
number, linear between the boundaries, rounded via `int(note_float + 0.5)`,
clamped back into `[note_lo, note_hi]`, and optionally remapped through a
scale function (`scale_fn`, `None` at the router's call site). -/
def clip_quantized (quantized : ℤ) (m : NoteMapping) : ℤ :=
  if quantized < m.note_lo then m.note_lo
  else if quantized > m.note_hi then m.note_hi
  else quantized

def quantize_note (dist_cm : ℚ) (m : NoteMapping) (scale_fn : Option (ℤ → ℤ)) : ℤ :=
  match scale_fn with
  | none => clip_quantized (pyTrunc (interpolate_note (clamp_distance dist_cm m) m + 1/2)) m
  | some f => f (clip_quantized (pyTrunc (interpolate_note (clamp_distance dist_cm m) m + 1/2)) m)

/-- The note mapping used in `tests/test_music_router.py` and the scenario
claims: distances 15–60 cm map to MIDI notes 48–72. -/
def testMapping : NoteMapping := ⟨15, 60, 48, 72⟩

/-- A valid mapping (`d_min < d_max`, `note_lo ≤ note_hi`) with negative
note numbers, on which `int(note_float + 0.5)` truncates toward zero
instead of flooring. -/
def cexMapping : NoteMapping := ⟨0, 10, -2, -1⟩

/-! ## `rasp_pi_node/hit_detect.py` -/

/-- The `epsilon = 1e-6` tolerance hard-coded in `detect_hit`. -/
def hitEpsilon : ℚ := 1/1000000

/-- `HitState`: mutable hit detection state. -/
structure HitState where
  armed : Bool
  last_hit_s : ℚ
  last_cm : Option ℚ
  last_sample_s : Option ℚ
  velocity_min : ℤ
  velocity_max : ℤ
  min_speed_cm_s : ℚ
  max_speed_cm_s : ℚ
  fixed_velocity : ℤ
deriving DecidableEq

/-- The speed-to-velocity curve at the core of `_compute_velocity`:
below `min_speed` maps to `velocity_min`, above `max_speed` to
`velocity_max`, linear interpolation rounded with Python `round` between. -/
def vel_from_speed (st : HitState) (approach_speed : ℚ) : ℤ :=
  if approach_speed ≤ st.min_speed_cm_s then st.velocity_min
  else if st.max_speed_cm_s ≤ approach_speed then st.velocity_max
  else pyRound ((st.velocity_min : ℚ)
    + (approach_speed - st.min_speed_cm_s) / (st.max_speed_cm_s - st.min_speed_cm_s)
      * ((st.velocity_max - st.velocity_min : ℤ) : ℚ))

/-- `_compute_velocity`: estimate a MIDI velocity from the approach speed
`max(0, (last_cm - cm) / dt)`; a missing prior sample or `dt <= 0` yields
the fixed fallback velocity. -/
def compute_velocity (cm t_s : ℚ) (st : HitState) : ℤ :=
  match st.last_cm, st.last_sample_s with
  | some prev_cm, some prev_t =>
    if t_s - prev_t ≤ 0 then st.fixed_velocity
    else vel_from_speed st (max 0 ((prev_cm - cm) / (t_s - prev_t)))
  | _, _ => st.fixed_velocity

/-- The tail of `detect_hit` (source lines 45-49): re-arm when disarmed and
`cm > thresh + hyst`, then record the sample as `last_cm`/`last_sample_s`. -/
def rearm_and_sample (cm t_s : ℚ) (st : HitState) (thresh hyst : ℚ) : HitState :=
  if st.armed = false ∧ thresh + hyst < cm then
    { st with armed := true, last_cm := some cm, last_sample_s := some t_s }
  else
    { st with last_cm := some cm, last_sample_s := some t_s }

/-- `detect_hit`: Schmitt-trigger threshold crossing with hysteresis and
refractory guard.  Fires when armed, `cm < thresh - hyst` and
`elapsed_since_hit + epsilon >= refract_s` (note the epsilon slack). -/
def detect_hit (cm t_s : ℚ) (st : HitState) (thresh hyst refract_s : ℚ) :
    Bool × ℤ × HitState :=
  if st.armed = true ∧ cm < thresh - hyst
      ∧ refract_s ≤ (t_s - st.last_hit_s) + hitEpsilon then
    (true, compute_velocity cm t_s st,
      rearm_and_sample cm t_s { st with armed := false, last_hit_s := t_s } thresh hyst)
  else
    (false, 0, rearm_and_sample cm t_s st thresh hyst)

/-- Feeding a list of `(cm, t)` samples through `detect_hit`, collecting the
timestamps of the fired hits (as the acquisition loop in
`rasp_pi_node/main.py` does per cycle). -/
def detect_run (st : HitState) (samples : List (ℚ × ℚ)) (thresh hyst refract_s : ℚ) :
    List ℚ × HitState :=
  match samples with
  | [] => ([], st)
  | s :: rest =>
    let r := detect_hit s.1 s.2 st thresh hyst refract_s
    let rr := detect_run r.2.2 rest thresh hyst refract_s
    (if r.1 then s.2 :: rr.1 else rr.1, rr.2)

/-- The default `HitState` of `rasp_pi_node/main.py` at startup (armed, no
prior sample, default velocity curve), used for concrete instances. -/
def cexHitState : HitState :=
  { armed := true, last_hit_s := 0, last_cm := none, last_sample_s := none,
    velocity_min := 30, velocity_max := 127, min_speed_cm_s := 5,
    max_speed_cm_s := 120, fixed_velocity := 100 }

/-! ## `laptop_node/pi_client.py` and `laptop_node/state.py` -/

/-- `SensorState`: latest sensor readings received from the Pi. -/
structure SensorState where
  dist_cm : Option ℚ
  hit_velocity : Option ℤ
  last_rx_ts : ℚ
deriving DecidableEq

/-- `_SensorBuffer`: the router-side single-slot receive buffer. -/
structure SensorBuffer where
  dist_cm : Option ℚ
  pending_hit : Option ℤ
  last_rx_ts : ℚ
deriving DecidableEq

/-- `_SensorBuffer.update_distance`; `perf_counter()` is passed in as
`now`. -/
def SensorBuffer.update_distance (b : SensorBuffer) (d : ℚ) (now : ℚ) : SensorBuffer :=
  { b with dist_cm := some d, last_rx_ts := now }

/-- `_SensorBuffer.update_hit`. -/
def SensorBuffer.update_hit (b : SensorBuffer) (velocity : ℤ) (now : ℚ) : SensorBuffer :=
  { b with pending_hit := some velocity, last_rx_ts := now }

/-- `_SensorBuffer.consume` (the body of `PiClient.consume_sensor_state`):
returns the snapshot and atomically clears the pending hit. -/
def SensorBuffer.consume (b : SensorBuffer) : SensorState × SensorBuffer :=
  ({ dist_cm := b.dist_cm, hit_velocity := b.pending_hit, last_rx_ts := b.last_rx_ts },
   { b with pending_hit := none })

/-- The velocity clamp `max(0, min(v, 127))` applied by both
`OscTx.send_hit` and `PiClient._on_hit`. -/
def clamp_velocity (v : ℤ) : ℤ := max 0 (min v 127)

/-- `PiClient._on_hit` for a well-typed integer payload: clamp and store. -/
def on_hit (b : SensorBuffer) (v : ℤ) (now : ℚ) : SensorBuffer :=
  b.update_hit (clamp_velocity v) now

/-! ## `rasp_pi_node/osc_sender.py` -/

/-- The three OSC addresses used by the sensor node, modelled as an
enumeration ("/dist", "/hit", "/alive"). -/
inductive OscAddress where
  | dist
  | hit
  | alive
deriving DecidableEq

/-- One queued OSC message: address plus its single numeric payload. -/
structure OscMsg where
  address : OscAddress
  value : ℚ
deriving DecidableEq

/-- The mutable state of `OscTx` relevant to the enqueue policy: the
bounded deque, its capacity, and the closed flag. -/
structure OscTxState where
  queue : List OscMsg
  queue_size : ℕ
  closed : Bool
deriving DecidableEq

/-- `OscTx._drop_oldest_dist_locked`: delete the first (oldest) queued
`/dist` message, returning the new queue, or `none` when no `/dist`
message is queued. -/
def drop_oldest_dist (q : List OscMsg) : Option (List OscMsg) :=
  match q with
  | [] => none
  | m :: rest =>
    if m.address = OscAddress.dist then some rest
    else (drop_oldest_dist rest).map (fun r => m :: r)

/-- `OscTx._enqueue`: returns whether the message was accepted, plus the
new state.  A full queue either evicts the oldest `/dist` (when
`drop_oldest` is set and one is queued) or rejects the new message. -/
def enqueue (s : OscTxState) (address : OscAddress) (value : ℚ)
    (drop_oldest : Bool) : Bool × OscTxState :=
  if s.closed = true then (false, s)
  else if s.queue_size ≤ s.queue.length then
    if drop_oldest = true then
      match drop_oldest_dist s.queue with
      | some q2 => (true, { s with queue := q2 ++ [⟨address, value⟩] })
      | none => (false, s)
    else (false, s)
  else (true, { s with queue := s.queue ++ [⟨address, value⟩] })

/-- `OscTx.send_dist`: distance messages coalesce (`drop_oldest=True`). -/
def send_dist (s : OscTxState) (cm : ℚ) : Bool × OscTxState :=
  enqueue s OscAddress.dist cm true

/-- `OscTx.send_hit`: velocity clamped, non-coalescing (a full queue drops
the new message itself, which is then logged). -/
def send_hit (s : OscTxState) (velocity : ℤ) : Bool × OscTxState :=
  enqueue s OscAddress.hit ((clamp_velocity velocity : ℤ) : ℚ) false

/-- `OscTx.send_alive`: heartbeats are non-coalescing too. -/
def send_alive (s : OscTxState) (seq : ℤ) : Bool × OscTxState :=
  enqueue s OscAddress.alive (seq : ℚ) false

/-- A concrete full two-slot queue holding a hit followed by a distance
message, used to witness the eviction policy. -/
def cexTxState : OscTxState :=
  { queue := [⟨OscAddress.hit, 90⟩, ⟨OscAddress.dist, 30⟩], queue_size := 2,
    closed := false }

/-! ## `laptop_node/music_router.py` and `laptop_node/state.py` -/

/-- `AppState`: camera-derived snapshot provided to the router. -/
structure AppState where
  instrument_state : String
  camera_state : String
  recording : Bool
  is_note_being_played : Bool

/-- `RouterState`: mutable state maintained by the musical router. -/
structure RouterState where
  held_note : Option ℤ
  last_note_sent : Option ℤ
  mute_until : ℚ
  was_recording : Bool
  was_note_playing : Bool

/-- One entry of the instrument map (a Python dict with keys `type`,
`note`, `program`); `is_drum` models `entry.get("type") == "drum"`. -/
structure InstrumentEntry where
  is_drum : Bool
  note : Option ℤ
  program : Option ℤ

/-- The default entry substituted by `_apply_instrument` for an unknown
label. -/
def defaultEntry : InstrumentEntry := { is_drum := false, note := none, program := none }

/-- `RouterConfig`: immutable configuration for the music router. -/
structure RouterConfig where
  mapping : NoteMapping
  instrument_map : List (String × InstrumentEntry)
  drum_channel : ℤ
  drum_note : ℤ
  lead_channel : ℤ
  lead_velocity : ℤ
  control_channel : ℤ
  record_cc : ℤ
  insert_track_cc : ℤ
  drum_velocity_default : ℤ
  bpm : ℚ
  countin_beats : ℤ
  watchdog_s : ℚ
  auto_insert_on_instrument_change : Bool
  insert_on_record_start : Bool

/-- `RouterConfig.countin_duration = countin_beats * 60 / bpm`. -/
def RouterConfig.countin_duration (c : RouterConfig) : ℚ :=
  (c.countin_beats : ℚ) * 60 / c.bpm

/-- `DIST_STEP_CM = 5.0`: distance snap bucket used by `process_tick`. -/
def DIST_STEP_CM : ℚ := 5

/-- The externally observable effects of one router tick, in emission
order: MIDI messages (with the router-level 1-based channel numbers, the
wire translation in `midi_io.py` subtracts one) and the two
edge-triggered watchdog log lines. -/
inductive REvent where
  | noteOn (channel note velocity : ℤ)
  | noteOff (channel note velocity : ℤ)
  | controlChange (channel cc value : ℤ)
  | programChange (channel program : ℤ)
  | logWatchdogTrip
  | logWatchdogRecover
deriving DecidableEq

/-- The full mutable state of a `MusicRouter` instance (the `_state`
dataclass plus the private tracking fields of `__init__`).  The transient
`_instrument_changed` flag, reset at the top of every tick, is threaded
as a local value inside `process_tick` instead. -/
structure MusicRouter where
  state : RouterState
  last_camera_state : Option String
  last_instrument_state : Option String
  watchdog_tripped : Bool
  current_is_drum : Bool
  current_drum_note : ℤ

/-- `MusicRouter.__init__`. -/
def init_router (cfg : RouterConfig) : MusicRouter :=
  { state := { held_note := none, last_note_sent := none, mute_until := 0,
               was_recording := false, was_note_playing := false },
    last_camera_state := none, last_instrument_state := none,
    watchdog_tripped := false, current_is_drum := false,
    current_drum_note := cfg.drum_note }

/-- `MusicRouter._release_note`: send NoteOff for the held note (if any)
on the lead channel and clear the bookkeeping. -/
def release_note (cfg : RouterConfig) (r : MusicRouter) : MusicRouter × List REvent :=
  match r.state.held_note with
  | none => (r, [])
  | some n =>
    ({ r with state := { r.state with held_note := none, last_note_sent := none } },
     [REvent.noteOff cfg.lead_channel n 0])

/-- `MusicRouter._trigger_drum`: NoteOn immediately followed by NoteOff at
the current drum note. -/
def trigger_drum (cfg : RouterConfig) (r : MusicRouter) (velocity : ℤ) : List REvent :=
  [REvent.noteOn cfg.drum_channel r.current_drum_note velocity,
   REvent.noteOff cfg.drum_channel r.current_drum_note 0]

/-- `MusicRouter._apply_instrument`: look the label up (default: lead),
set the drum/lead mode and drum note, and for a lead entry send the
configured program change (whose failure the source swallows). -/
def apply_instrument (cfg : RouterConfig) (label : String) (r : MusicRouter) :
    MusicRouter × List REvent :=
  if ((cfg.instrument_map.lookup label).getD defaultEntry).is_drum = true then
    ({ r with
        current_is_drum := true,
        current_drum_note :=
          ((cfg.instrument_map.lookup label).getD defaultEntry).note.getD
            cfg.drum_note }, [])
  else
    ({ r with current_is_drum := false },
     match ((cfg.instrument_map.lookup label).getD defaultEntry).program with
     | some p => [REvent.programChange cfg.lead_channel p]
     | none => [])

/-- The camera-mode half of `MusicRouter._log_mode_changes`: cache the
new camera state on a change (the attached log line has no modelled
effect). -/
def camera_track (app : AppState) (r : MusicRouter) : MusicRouter :=
  if r.last_camera_state ≠ some app.camera_state
  then { r with last_camera_state := some app.camera_state } else r

/-- `MusicRouter._log_mode_changes`: track camera and instrument label
changes; an instrument change applies the new instrument and raises the
transient `_instrument_changed` flag (the returned `Bool`). -/
def log_mode_changes (cfg : RouterConfig) (app : AppState) (r : MusicRouter) :
    MusicRouter × Bool × List REvent :=
  if (camera_track app r).last_instrument_state ≠ some app.instrument_state then
    match apply_instrument cfg app.instrument_state
        { camera_track app r with
          last_instrument_state := some app.instrument_state } with
    | (r2, evs) => (r2, true, evs)
  else (camera_track app r, false, [])

/-- `MusicRouter._check_watchdog`: on `now - last_rx_ts ≥ watchdog_s`
log (only on the trip edge), set the tripped flag and force-release any
held note; otherwise log only on the recovery edge and clear the flag. -/
def check_watchdog (cfg : RouterConfig) (sensor : SensorState) (now : ℚ)
    (r : MusicRouter) : MusicRouter × List REvent :=
  if cfg.watchdog_s ≤ now - sensor.last_rx_ts then
    match release_note cfg { r with watchdog_tripped := true } with
    | (r2, out) =>
      (r2, (if r.watchdog_tripped = true then [] else [REvent.logWatchdogTrip]) ++ out)
  else
    ({ r with watchdog_tripped := false },
     if r.watchdog_tripped = true then [REvent.logWatchdogRecover] else [])

/-- `MusicRouter._handle_recording_edge`: on the false→true edge emit the
record CC (and optionally the insert-track CC), set
`mute_until = now + countin_duration` and release any held note; on the
true→false edge emit the record CC again and reset the flag
(`mute_until` is left unchanged). -/
def handle_recording_edge (cfg : RouterConfig) (app : AppState) (now : ℚ)
    (r : MusicRouter) : MusicRouter × List REvent :=
  if r.state.was_recording = false ∧ app.recording = true then
    match release_note cfg
        { r with state := { r.state with
            mute_until := now + cfg.countin_duration, was_recording := true } } with
    | (r2, out) =>
      (r2, [REvent.controlChange cfg.control_channel cfg.record_cc 127]
        ++ (if cfg.insert_on_record_start = true
            then [REvent.controlChange cfg.control_channel cfg.insert_track_cc 127]
            else [])
        ++ out)
  else if r.state.was_recording = true ∧ app.recording = false then
    ({ r with state := { r.state with was_recording := false } },
     [REvent.controlChange cfg.control_channel cfg.record_cc 127])
  else (r, [])

/-- The instrument-change reaction at the top of `process_tick` (source
lines 72-75): when the label changed this tick, release any held note and
optionally emit the insert-track control change. -/
def instrument_change_block (cfg : RouterConfig) (app : AppState)
    (instrument_changed : Bool) (r : MusicRouter) : MusicRouter × List REvent :=
  if instrument_changed = true then
    match release_note cfg r with
    | (r2, out) =>
      (r2, out ++ (if cfg.auto_insert_on_instrument_change = true
            ∧ app.recording = true
          then [REvent.controlChange cfg.control_channel cfg.insert_track_cc 127]
          else []))
  else (r, [])

/-- The pre-branch phases of `process_tick` (source lines 70-79): mode and
instrument tracking, instrument-change release, watchdog, recording edge.
Returns the updated router and the events emitted so far. -/
def tick_pre (cfg : RouterConfig) (app : AppState) (sensor : SensorState)
    (now : ℚ) (r : MusicRouter) : MusicRouter × List REvent :=
  match log_mode_changes cfg app r with
  | (r1, instrument_changed, evs1) =>
    match instrument_change_block cfg app instrument_changed r1 with
    | (r2, evs2) =>
      match check_watchdog cfg sensor now r2 with
      | (r3, evs3) =>
        match handle_recording_edge cfg app now r3 with
        | (r4, evs4) => (r4, evs1 ++ evs2 ++ evs3 ++ evs4)

/-- The branch part of `process_tick` (source lines 79-122), running on
the router state left by `tick_pre`. -/
def tick_main (cfg : RouterConfig) (app : AppState) (sensor : SensorState)
    (now : ℚ) (r : MusicRouter) : MusicRouter × List REvent :=
  if app.camera_state ≠ "play" then
    match release_note cfg r with
    | (r2, out) =>
      ({ r2 with state := { r2.state with was_note_playing := false } }, out)
  else if now < r.state.mute_until then
    match release_note cfg r with
    | (r2, out) =>
      ({ r2 with state := { r2.state with was_note_playing := false } }, out)
  else if r.current_is_drum = true then
    match release_note cfg r with
    | (r2, out) =>
      ({ r2 with state := { r2.state with
          was_note_playing := app.is_note_being_played } },
       out ++ (if r2.state.was_note_playing = false ∧ app.is_note_being_played = true
         then trigger_drum cfg r2 cfg.drum_velocity_default
         else []))
  else
    match sensor.dist_cm, app.is_note_being_played with
    | some d, true =>
      if r.state.held_note = some (quantize_note
          ((pyRound (d / DIST_STEP_CM) : ℚ) * DIST_STEP_CM) cfg.mapping none)
      then (r, [])
      else
        match release_note cfg r with
        | (r2, out) =>
          ({ r2 with state := { r2.state with
              held_note := some (quantize_note
                ((pyRound (d / DIST_STEP_CM) : ℚ) * DIST_STEP_CM) cfg.mapping none),
              last_note_sent := some (quantize_note
                ((pyRound (d / DIST_STEP_CM) : ℚ) * DIST_STEP_CM) cfg.mapping none),
              was_note_playing := true } },
           out ++ [REvent.noteOn cfg.lead_channel
             (quantize_note ((pyRound (d / DIST_STEP_CM) : ℚ) * DIST_STEP_CM)
               cfg.mapping none) cfg.lead_velocity])
    | _, _ =>
      match release_note cfg r with
      | (r2, out) =>
        ({ r2 with state := { r2.state with was_note_playing := false } }, out)

/-- `MusicRouter.process_tick`. -/
def process_tick (cfg : RouterConfig) (app : AppState) (sensor : SensorState)
    (now : ℚ) (r : MusicRouter) : MusicRouter × List REvent :=
  match tick_pre cfg app sensor now r with
  | (r1, pre) =>
    match tick_main cfg app sensor now r1 with
    | (r2, out) => (r2, pre ++ out)

/-! ## C2: NoteOn/NoteOff pairing invariant -/

/-- Fold the (channel, note) multiset of unmatched NoteOns over an event
list: a NoteOn opens a pair, a NoteOff closes the matching one (first
occurrence); other events are ignored. -/
def note_events_open (acc : List (ℤ × ℤ)) : List REvent → List (ℤ × ℤ)
  | [] => acc
  | REvent.noteOn c n _ :: rest => note_events_open (acc ++ [(c, n)]) rest
  | REvent.noteOff c n _ :: rest => note_events_open (acc.erase (c, n)) rest
  | REvent.controlChange _ _ _ :: rest => note_events_open acc rest
  | REvent.programChange _ _ :: rest => note_events_open acc rest
  | REvent.logWatchdogTrip :: rest => note_events_open acc rest
  | REvent.logWatchdogRecover :: rest => note_events_open acc rest

/-- The unmatched NoteOns that `held_note` claims to exist: none when no
note is held, exactly one on the lead channel otherwise. -/
def held_open (cfg : RouterConfig) (r : MusicRouter) : List (ℤ × ℤ) :=
  match r.state.held_note with
  | none => []
  | some n => [(cfg.lead_channel, n)]

/-! ## Concrete router scenarios -/

/-- The router configuration of `tests/test_music_router.py`. -/
def testConfig : RouterConfig :=
  { mapping := testMapping, instrument_map := [], drum_channel := 10,
    drum_note := 36, lead_channel := 1, lead_velocity := 90,
    control_channel := 1, record_cc := 20, insert_track_cc := 21,
    drum_velocity_default := 100, bpm := 120, countin_beats := 4,
    watchdog_s := 5, auto_insert_on_instrument_change := false,
    insert_on_record_start := false }

/-- Camera state of the scenario: instrument "synth", mode play, not
recording, note gate held. -/
def playApp : AppState :=
  { instrument_state := "synth", camera_state := "play", recording := false,
    is_note_being_played := true }

/-- Router state after the mode/instrument tracking of the first tick
(camera "play" and instrument "synth" cached, nothing held yet). -/
def scenarioRouter0 : MusicRouter :=
  { state := { held_note := none, last_note_sent := none, mute_until := 0,
               was_recording := false, was_note_playing := false },
    last_camera_state := some ("play"), last_instrument_state := some ("synth"),
    watchdog_tripped := false, current_is_drum := false,
    current_drum_note := 36 }

/-- Router state after the first scenario tick: note 56 held. -/
def scenarioRouter1 : MusicRouter :=
  { state := { held_note := some 56, last_note_sent := some 56, mute_until := 0,
               was_recording := false, was_note_playing := true },
    last_camera_state := some ("play"), last_instrument_state := some ("synth"),
    watchdog_tripped := false, current_is_drum := false,
    current_drum_note := 36 }

/-- Router state after the third scenario tick: note 64 held. -/
def scenarioRouter3 : MusicRouter :=
  { state := { held_note := some 64, last_note_sent := some 64, mute_until := 0,
               was_recording := false, was_note_playing := true },
    last_camera_state := some ("play"), last_instrument_state := some ("synth"),
    watchdog_tripped := false, current_is_drum := false,
    current_drum_note := 36 }

/-- Router state in the middle of the stale tick: the watchdog has tripped
and released note 56. -/
def c1MidRouter : MusicRouter :=
  { state := { held_note := none, last_note_sent := none, mute_until := 0,
               was_recording := false, was_note_playing := true },
    last_camera_state := some ("play"), last_instrument_state := some ("synth"),
    watchdog_tripped := true, current_is_drum := false,
    current_drum_note := 36 }

/-- Router state at the end of the stale tick: note 56 is sounding again. -/
def c1Router : MusicRouter :=
  { state := { held_note := some 56, last_note_sent := some 56, mute_until := 0,
               was_recording := false, was_note_playing := true },
    last_camera_state := some ("play"), last_instrument_state := some ("synth"),
    watchdog_tripped := true, current_is_drum := false,
    current_drum_note := 36 }

/-- Camera state during recording: same as `playApp` but `recording`. -/
def recApp : AppState :=
  { instrument_state := "synth", camera_state := "play", recording := true,
    is_note_being_played := true }

/-- Router state after recording started at `t = 0` with the test
configuration: count-in mute until `t = 2`, held note released. -/
def c8MutedRouter : MusicRouter :=
  { state := { held_note := none, last_note_sent := none, mute_until := 2,
               was_recording := true, was_note_playing := false },
    last_camera_state := some ("play"), last_instrument_state := some ("synth"),
    watchdog_tripped := false, current_is_drum := false,
    current_drum_note := 36 }

/-- Router state after recording stopped at `t = 1`: the flag is reset but
`mute_until = 2` is still in place. -/
def c8FallRouter : MusicRouter :=
  { state := { held_note := none, last_note_sent := none, mute_until := 2,
               was_recording := false, was_note_playing := false },
    last_camera_state := some ("play"), last_instrument_state := some ("synth"),
    watchdog_tripped := false, current_is_drum := false,
    current_drum_note := 36 }

/-! ## `laptop_node/main.py` `router_loop` (fixed-rate scheduling) -/

/-- The timing state of the fixed-rate loop: current time and the
accumulated `next_tick` deadline. -/
structure LoopState where
  now : ℚ
  next_tick : ℚ
deriving DecidableEq

/-- One iteration of `router_loop`: `next_tick += tick_interval` at the
top, the tick body consumes `proc` seconds, then the loop sleeps
`max(0, next_tick - perf_counter())`.  Returns the new state, the cycle's
deadline, and the sleep amount. -/
def loop_cycle (period proc : ℚ) (s : LoopState) : LoopState × ℚ × ℚ :=
  ({ now := s.now + proc + max 0 (s.next_tick + period - (s.now + proc)),
     next_tick := s.next_tick + period },
   s.next_tick + period, max 0 (s.next_tick + period - (s.now + proc)))

/-- Run the loop over a list of per-cycle processing durations, collecting
each cycle's `(deadline, sleep)`. -/
def run_loop (period : ℚ) (s : LoopState) (procs : List ℚ) : List (ℚ × ℚ) :=
  match procs with
  | [] => []
  | proc :: rest =>
    match loop_cycle period proc s with
    | (s2, deadline, sleep) => (deadline, sleep) :: run_loop period s2 rest

lemma pyTrunc_intCast (z : ℤ) : pyTrunc (z : ℚ) = z := by
  unfold pyTrunc
  split <;> simp

lemma pyTrunc_mono {x y : ℚ} (h : x ≤ y) : pyTrunc x ≤ pyTrunc y := by
  unfold pyTrunc
  split <;> split
  · exact Int.floor_le_floor h
  · rename_i hx hy
    exact absurd (le_trans hx h) hy
  · rename_i hx hy
    have h1 : ⌈x⌉ ≤ 0 := Int.ceil_le.mpr (by exact_mod_cast le_of_not_le hx)
    have h2 : (0:ℤ) ≤ ⌊y⌋ := Int.floor_nonneg.mpr hy
    omega
  · exact Int.ceil_le_ceil h

lemma pyRound_intCast (z : ℤ) : pyRound (z : ℚ) = z := by
  unfold pyRound
  norm_num

lemma pyRound_le_floor_add_one (x : ℚ) : pyRound x ≤ ⌊x⌋ + 1 := by
  unfold pyRound
  split_ifs <;> omega

lemma floor_le_pyRound (x : ℚ) : ⌊x⌋ ≤ pyRound x := by
  unfold pyRound
  split_ifs <;> omega

lemma pyRound_mono {x y : ℚ} (h : x ≤ y) : pyRound x ≤ pyRound y := by
  rcases lt_or_eq_of_le (Int.floor_le_floor h) with hf | hf
  · have hx1 := pyRound_le_floor_add_one x
    have hy1 := floor_le_pyRound y
    omega
  · have hxy : x - (⌊x⌋ : ℚ) ≤ y - (⌊y⌋ : ℚ) := by
      rw [hf]
      linarith
    unfold pyRound
    rw [hf] at hxy ⊢
    split_ifs <;> first | omega | linarith

lemma clamp_distance_mono {m : NoteMapping} (hv : m.Valid) {d1 d2 : ℚ}
    (h : d1 ≤ d2) : clamp_distance d1 m ≤ clamp_distance d2 m := by
  have := hv.1
  unfold clamp_distance
  split_ifs <;> linarith

lemma clamp_distance_mem {m : NoteMapping} (hv : m.Valid) (d : ℚ) :
    m.d_min_cm ≤ clamp_distance d m ∧ clamp_distance d m ≤ m.d_max_cm := by
  have := hv.1
  unfold clamp_distance
  split_ifs <;> constructor <;> linarith

lemma interpolate_note_mono {m : NoteMapping} (hv : m.Valid) {x y : ℚ}
    (h : x ≤ y) : interpolate_note x m ≤ interpolate_note y m := by
  unfold interpolate_note
  split
  · exact le_refl _
  · rename_i hne
    have hspan : (0:ℚ) < m.d_max_cm - m.d_min_cm := by linarith [hv.1]
    have hns : (0:ℚ) ≤ ((m.note_hi - m.note_lo : ℤ) : ℚ) := by
      have h2 : (m.note_lo : ℚ) ≤ (m.note_hi : ℚ) := by exact_mod_cast hv.2
      push_cast
      linarith
    have hdiv : (x - m.d_min_cm) / (m.d_max_cm - m.d_min_cm)
        ≤ (y - m.d_min_cm) / (m.d_max_cm - m.d_min_cm) := by
      gcongr
    have := mul_le_mul_of_nonneg_right hdiv hns
    linarith

lemma pyTrunc_eq_of_nonneg {x : ℚ} {n : ℤ} (h0 : 0 ≤ x) (h1 : (n:ℚ) ≤ x)
    (h2 : x < (n:ℚ) + 1) : pyTrunc x = n := by
  unfold pyTrunc
  rw [if_pos h0]
  rw [Int.floor_eq_iff]
  constructor <;> push_cast <;> linarith

lemma pyTrunc_eq_of_neg {x : ℚ} {n : ℤ} (h0 : ¬ 0 ≤ x) (h1 : (n:ℚ) - 1 < x)
    (h2 : x ≤ (n:ℚ)) : pyTrunc x = n := by
  unfold pyTrunc
  rw [if_neg h0]
  rw [Int.ceil_eq_iff]
  constructor <;> push_cast <;> linarith

lemma pyRound_eq_of_lt_half {x : ℚ} {n : ℤ} (h1 : (n:ℚ) ≤ x)
    (h2 : x < (n:ℚ) + 1/2) : pyRound x = n := by
  have hf : ⌊x⌋ = n := by
    rw [Int.floor_eq_iff]
    constructor <;> push_cast <;> linarith
  unfold pyRound
  rw [hf]
  rw [if_pos (by linarith)]

lemma pyRound_eq_of_gt_half {x : ℚ} {n : ℤ} (h1 : (n:ℚ) + 1/2 < x)
    (h2 : x < (n:ℚ) + 1) : pyRound x = n + 1 := by
  have hf : ⌊x⌋ = n := by
    rw [Int.floor_eq_iff]
    constructor <;> push_cast <;> linarith
  unfold pyRound
  rw [hf]
  rw [if_neg (by push_cast; linarith), if_pos (by push_cast; linarith)]

lemma clip_quantized_mono {m : NoteMapping} (hv : m.Valid) {a b : ℤ}
    (h : a ≤ b) : clip_quantized a m ≤ clip_quantized b m := by
  have := hv.2
  unfold clip_quantized
  split_ifs <;> omega

lemma clip_quantized_mem {m : NoteMapping} (hv : m.Valid) (a : ℤ) :
    m.note_lo ≤ clip_quantized a m ∧ clip_quantized a m ≤ m.note_hi := by
  have := hv.2
  unfold clip_quantized
  split_ifs <;> omega

/-- C4 (counterexample): the claim fails as stated.  `cexMapping` is a
valid `NoteMapping`, the distance `0` satisfies `d ≤ d_min`, but
`quantize_note` returns `-1`, not `note_lo = -2`: for negative notes the
rounding step `int(note_float + 0.5)` truncates toward zero, pulling the
result one semitone above the lower bound. -/
theorem c4_quantize_counterexample :
    cexMapping.Valid ∧ (0:ℚ) ≤ cexMapping.d_min_cm
    ∧ quantize_note 0 cexMapping none = -1 ∧ cexMapping.note_lo = -2 := by
  refine ⟨⟨by norm_num [cexMapping], by norm_num [cexMapping]⟩, by norm_num [cexMapping], ?_, by norm_num [cexMapping]⟩
  have hc : clamp_distance 0 cexMapping = 0 := by
    norm_num [clamp_distance, cexMapping]
  have hi : interpolate_note 0 cexMapping = -2 := by
    norm_num [interpolate_note, cexMapping]
  have ht : pyTrunc ((-2 : ℚ) + 1/2) = -1 := by
    apply pyTrunc_eq_of_neg <;> norm_num
  simp only [quantize_note, hc, hi, ht]
  norm_num [clip_quantized, cexMapping]

/-- C4 (amended): for every valid `NoteMapping`, `quantize_note` (with no
scale function, as the router calls it) is monotone non-decreasing in the
distance and its result always lies in `[note_lo, note_hi]`; when
additionally `0 ≤ note_lo` (true of all MIDI note ranges), distances at or
below `d_min_cm` map exactly to `note_lo` and distances at or above
`d_max_cm` map exactly to `note_hi`; and whenever the interpolated float
note lands exactly on a midpoint `n + 1/2` whose round-up `n + 1` is in
range, the result is `n + 1` (ties round toward the larger integer). -/
theorem c4_quantize_amended :
    (∀ (m : NoteMapping) (d1 d2 : ℚ), m.Valid → d1 ≤ d2 →
      quantize_note d1 m none ≤ quantize_note d2 m none)
    ∧ (∀ (m : NoteMapping) (d : ℚ), m.Valid →
      m.note_lo ≤ quantize_note d m none ∧ quantize_note d m none ≤ m.note_hi)
    ∧ (∀ (m : NoteMapping) (d : ℚ), m.Valid → 0 ≤ m.note_lo →
      (d ≤ m.d_min_cm → quantize_note d m none = m.note_lo)
      ∧ (m.d_max_cm ≤ d → quantize_note d m none = m.note_hi))
    ∧ (∀ (m : NoteMapping) (d : ℚ) (n : ℤ), m.Valid →
      interpolate_note (clamp_distance d m) m = (n : ℚ) + 1/2 →
      m.note_lo ≤ n + 1 → n + 1 ≤ m.note_hi →
      quantize_note d m none = n + 1) := by
  refine ⟨?_, ?_, ?_, ?_⟩
  · intro m d1 d2 hv h12
    simp only [quantize_note]
    exact clip_quantized_mono hv
      (pyTrunc_mono (by linarith [interpolate_note_mono hv (clamp_distance_mono hv h12)]))
  · intro m d hv
    simp only [quantize_note]
    exact clip_quantized_mem hv _
  · intro m d hv hlo
    have hlo' : (0:ℚ) ≤ (m.note_lo : ℚ) := by exact_mod_cast hlo
    constructor
    · intro hd
      have hc : clamp_distance d m = m.d_min_cm := by
        have := hv.1
        unfold clamp_distance
        split_ifs <;> linarith
      have hi : interpolate_note m.d_min_cm m = (m.note_lo : ℚ) := by
        unfold interpolate_note
        split_ifs with h
        · rfl
        · norm_num
      have ht : pyTrunc ((m.note_lo : ℚ) + 1/2) = m.note_lo := by
        apply pyTrunc_eq_of_nonneg <;> push_cast <;> linarith
      simp only [quantize_note, hc, hi, ht]
      unfold clip_quantized
      have := hv.2
      split_ifs <;> omega
    · intro hd
      have hc : clamp_distance d m = m.d_max_cm := by
        have := hv.1
        unfold clamp_distance
        split_ifs <;> linarith
      have hi : interpolate_note m.d_max_cm m = (m.note_hi : ℚ) := by
        unfold interpolate_note
        split_ifs with h
        · rcases h with h | h
          · exfalso
            have := hv.1
            linarith
          · have : m.note_hi = m.note_lo := by omega
            rw [this]
        · have hne : m.d_max_cm - m.d_min_cm ≠ 0 := by
            intro h0
            exact h (Or.inl h0)
          rw [div_self hne]
          push_cast
          ring
      have hhi' : (0:ℚ) ≤ (m.note_hi : ℚ) := by
        exact_mod_cast le_trans hlo hv.2
      have ht : pyTrunc ((m.note_hi : ℚ) + 1/2) = m.note_hi := by
        apply pyTrunc_eq_of_nonneg <;> push_cast <;> linarith
      simp only [quantize_note, hc, hi, ht]
      unfold clip_quantized
      have := hv.2
      split_ifs <;> omega
  · intro m d n hv hmid h1 h2
    have hcast : ((n:ℚ) + 1/2) + 1/2 = ((n + 1 : ℤ) : ℚ) := by
      push_cast
      ring
    simp only [quantize_note, hmid, hcast, pyTrunc_intCast]
    unfold clip_quantized
    split_ifs <;> omega

/-- C4 (witness): the amended theorem applied to the test mapping at the
concrete distances 30 cm and 45 cm. -/
theorem c4_quantize_amended_witness :
    testMapping.Valid
    ∧ quantize_note 30 testMapping none ≤ quantize_note 45 testMapping none := by
  have hv : testMapping.Valid := ⟨by norm_num [testMapping], by norm_num [testMapping]⟩
  exact ⟨hv, c4_quantize_amended.1 testMapping 30 45 hv (by norm_num)⟩

lemma rearm_and_sample_last_hit (cm t_s : ℚ) (st : HitState) (thresh hyst : ℚ) :
    (rearm_and_sample cm t_s st thresh hyst).last_hit_s = st.last_hit_s := by
  unfold rearm_and_sample
  split_ifs <;> rfl

/-- Any two consecutive fired hits are separated by at least
`refract_s - hitEpsilon`, and the first is at least that far from the
initial `last_hit_s`. -/
lemma detect_run_chain (st : HitState) (samples : List (ℚ × ℚ))
    (thresh hyst refract_s : ℚ) :
    List.Chain (fun a b => a + refract_s ≤ b + hitEpsilon) st.last_hit_s
      (detect_run st samples thresh hyst refract_s).1 := by
  induction samples generalizing st with
  | nil => exact List.Chain.nil
  | cons s rest ih =>
    unfold detect_run
    by_cases hc : st.armed = true ∧ s.1 < thresh - hyst
        ∧ refract_s ≤ (s.2 - st.last_hit_s) + hitEpsilon
    · simp only [detect_hit, if_pos hc]
      have hlast : (rearm_and_sample s.1 s.2
          { st with armed := false, last_hit_s := s.2 } thresh hyst).last_hit_s = s.2 :=
        rearm_and_sample_last_hit ..
      refine List.Chain.cons (by linarith [hc.2.2]) ?_
      have := ih (rearm_and_sample s.1 s.2
          { st with armed := false, last_hit_s := s.2 } thresh hyst)
      rwa [hlast] at this
    · simp only [detect_hit, if_neg hc]
      have hlast := rearm_and_sample_last_hit s.1 s.2 st thresh hyst
      have := ih (rearm_and_sample s.1 s.2 st thresh hyst)
      rwa [hlast] at this

lemma vel_from_speed_mem (st : HitState) (sp : ℚ)
    (hv : st.velocity_min ≤ st.velocity_max) :
    st.velocity_min ≤ vel_from_speed st sp ∧ vel_from_speed st sp ≤ st.velocity_max := by
  unfold vel_from_speed
  split_ifs with h1 h2
  · exact ⟨le_refl _, hv⟩
  · exact ⟨hv, le_refl _⟩
  · push_neg at h1 h2
    have hden : (0:ℚ) < st.max_speed_cm_s - st.min_speed_cm_s := by linarith
    have hfrac0 : (0:ℚ) ≤ (sp - st.min_speed_cm_s) / (st.max_speed_cm_s - st.min_speed_cm_s) := by
      apply div_nonneg <;> linarith
    have hfrac1 : (sp - st.min_speed_cm_s) / (st.max_speed_cm_s - st.min_speed_cm_s) ≤ 1 := by
      rw [div_le_one hden]
      linarith
    have hdel : (0:ℚ) ≤ ((st.velocity_max - st.velocity_min : ℤ) : ℚ) := by
      push_cast
      have : (st.velocity_min : ℚ) ≤ (st.velocity_max : ℚ) := by exact_mod_cast hv
      linarith
    have hlow : (st.velocity_min : ℚ)
        ≤ (st.velocity_min : ℚ) + (sp - st.min_speed_cm_s) / (st.max_speed_cm_s - st.min_speed_cm_s)
          * ((st.velocity_max - st.velocity_min : ℤ) : ℚ) := by
      nlinarith
    have hhigh : (st.velocity_min : ℚ) + (sp - st.min_speed_cm_s) / (st.max_speed_cm_s - st.min_speed_cm_s)
          * ((st.velocity_max - st.velocity_min : ℤ) : ℚ)
        ≤ (st.velocity_max : ℚ) := by
      have hmul : (sp - st.min_speed_cm_s) / (st.max_speed_cm_s - st.min_speed_cm_s)
            * ((st.velocity_max - st.velocity_min : ℤ) : ℚ)
          ≤ 1 * ((st.velocity_max - st.velocity_min : ℤ) : ℚ) :=
        mul_le_mul_of_nonneg_right hfrac1 hdel
      push_cast at hmul ⊢
      linarith
    constructor
    · have := pyRound_mono hlow
      rwa [pyRound_intCast] at this
    · have := pyRound_mono hhigh
      rwa [pyRound_intCast] at this

lemma vel_from_speed_mono (st : HitState) {sp1 sp2 : ℚ}
    (hv : st.velocity_min ≤ st.velocity_max) (h12 : sp1 ≤ sp2) :
    vel_from_speed st sp1 ≤ vel_from_speed st sp2 := by
  rcases le_or_lt sp1 st.min_speed_cm_s with h1 | h1
  · have e1 : vel_from_speed st sp1 = st.velocity_min := by
      unfold vel_from_speed
      rw [if_pos h1]
    rw [e1]
    exact (vel_from_speed_mem st sp2 hv).1
  · rcases le_or_lt st.max_speed_cm_s sp2 with h2 | h2
    · have e2 : vel_from_speed st sp2 = st.velocity_max := by
        unfold vel_from_speed
        rw [if_neg (by push_neg; linarith), if_pos h2]
      rw [e2]
      exact (vel_from_speed_mem st sp1 hv).2
    · have hden : (0:ℚ) < st.max_speed_cm_s - st.min_speed_cm_s := by linarith
      have hdel : (0:ℚ) ≤ ((st.velocity_max - st.velocity_min : ℤ) : ℚ) := by
        push_cast
        have : (st.velocity_min : ℚ) ≤ (st.velocity_max : ℚ) := by exact_mod_cast hv
        linarith
      have hdiv : (sp1 - st.min_speed_cm_s) / (st.max_speed_cm_s - st.min_speed_cm_s)
          ≤ (sp2 - st.min_speed_cm_s) / (st.max_speed_cm_s - st.min_speed_cm_s) := by
        gcongr
      have hval := mul_le_mul_of_nonneg_right hdiv hdel
      unfold vel_from_speed
      rw [if_neg (by linarith), if_neg (by linarith), if_neg (by linarith), if_neg (by linarith)]
      exact pyRound_mono (by linarith)

/-- C5 (counterexample): the claim fails as stated.  With threshold 25,
hysteresis 2 and refractory period 0.2 s, an armed detector whose last hit
was at `t = 0` fires again at `t = 0.2 - 5·10⁻⁷ s` for `cm = 20`: the guard
is `elapsed + 1e-6 ≥ refractory`, not `elapsed ≥ refractory`, so a hit can
fire with strictly less than the refractory period elapsed. -/
theorem c5_refractory_counterexample :
    (detect_hit 20 (399999/2000000) cexHitState 25 2 (1/5)).1 = true
    ∧ (399999/2000000 : ℚ) - cexHitState.last_hit_s < 1/5 := by
  constructor
  · unfold detect_hit
    rw [if_pos]
    refine ⟨rfl, by norm_num, ?_⟩
    norm_num [cexHitState, hitEpsilon]
  · norm_num [cexHitState]

/-- C5 (amended): `detect_hit` fires only when armed, `distance <
threshold - hysteresis`, and `elapsed + 1e-6 ≥ refractory` (an epsilon
slack of one microsecond; without the slack the claim fails, see the
counterexample); a fire disarms the detector and stamps the hit time; no
fire ever occurs while disarmed, regardless of threshold crossings;
re-arming happens exactly when `distance > threshold + hysteresis`; over
any sample sequence, consecutive fired hits are separated by at least
`refractory - 1e-6`; the computed velocity is the fixed fallback when the
prior sample is missing or `dt ≤ 0`, otherwise it is a monotone function
of the approach speed clamped into `[velocity_min, velocity_max]`. -/
theorem c5_hit_detector_amended :
    (∀ (cm t : ℚ) (st : HitState) (th hy re : ℚ), 0 ≤ hy →
      (detect_hit cm t st th hy re).1 = true →
      st.armed = true ∧ cm < th - hy ∧ re ≤ (t - st.last_hit_s) + hitEpsilon
      ∧ (detect_hit cm t st th hy re).2.2.armed = false
      ∧ (detect_hit cm t st th hy re).2.2.last_hit_s = t)
    ∧ (∀ (cm t : ℚ) (st : HitState) (th hy re : ℚ), st.armed = false →
      (detect_hit cm t st th hy re).1 = false)
    ∧ (∀ (cm t : ℚ) (st : HitState) (th hy re : ℚ), st.armed = false →
      ((detect_hit cm t st th hy re).2.2.armed = true ↔ th + hy < cm))
    ∧ (∀ (st : HitState) (samples : List (ℚ × ℚ)) (th hy re : ℚ),
      List.Chain (fun a b => a + re ≤ b + hitEpsilon) st.last_hit_s
        (detect_run st samples th hy re).1)
    ∧ (∀ (cm t : ℚ) (st : HitState), st.last_cm = none ∨ st.last_sample_s = none →
      compute_velocity cm t st = st.fixed_velocity)
    ∧ (∀ (cm t : ℚ) (st : HitState) (pc pt : ℚ), st.last_cm = some pc →
      st.last_sample_s = some pt → t - pt ≤ 0 →
      compute_velocity cm t st = st.fixed_velocity)
    ∧ (∀ (cm t : ℚ) (st : HitState) (pc pt : ℚ), st.last_cm = some pc →
      st.last_sample_s = some pt → 0 < t - pt →
      compute_velocity cm t st = vel_from_speed st (max 0 ((pc - cm) / (t - pt))))
    ∧ (∀ (st : HitState) (sp : ℚ), st.velocity_min ≤ st.velocity_max →
      st.velocity_min ≤ vel_from_speed st sp ∧ vel_from_speed st sp ≤ st.velocity_max)
    ∧ (∀ (st : HitState) (sp1 sp2 : ℚ), st.velocity_min ≤ st.velocity_max →
      sp1 ≤ sp2 → vel_from_speed st sp1 ≤ vel_from_speed st sp2) := by
  refine ⟨?_, ?_, ?_, ?_, ?_, ?_, ?_, ?_, ?_⟩
  · intro cm t st th hy re hhy hfired
    unfold detect_hit at hfired ⊢
    split_ifs at hfired ⊢ with hc
    · refine ⟨hc.1, hc.2.1, hc.2.2, ?_, ?_⟩
      · unfold rearm_and_sample
        rw [if_neg]
        push_neg
        intro _
        linarith [hc.2.1]
      · exact rearm_and_sample_last_hit ..
  · intro cm t st th hy re hdis
    unfold detect_hit
    rw [if_neg]
    intro hc
    rw [hdis] at hc
    exact Bool.false_ne_true hc.1
  · intro cm t st th hy re hdis
    unfold detect_hit
    rw [if_neg (by intro hc; rw [hdis] at hc; exact Bool.false_ne_true hc.1)]
    unfold rearm_and_sample
    split_ifs with hr
    · simpa using hr.2
    · simp only [hdis]
      constructor
      · intro h
        exact absurd h Bool.false_ne_true
      · intro h
        exact absurd ⟨hdis, h⟩ hr
  · exact detect_run_chain
  · intro cm t st hmiss
    unfold compute_velocity
    rcases hc : st.last_cm with _ | pc
    · rfl
    · rcases hts : st.last_sample_s with _ | pt
      · rfl
      · rcases hmiss with h | h
        · rw [hc] at h
          exact absurd h (by simp)
        · rw [hts] at h
          exact absurd h (by simp)
  · intro cm t st pc pt h1 h2 hdt
    unfold compute_velocity
    rw [h1, h2]
    simp only [if_pos hdt]
  · intro cm t st pc pt h1 h2 hdt
    unfold compute_velocity
    rw [h1, h2]
    simp only [if_neg (by linarith : ¬ t - pt ≤ 0)]
  · exact vel_from_speed_mem
  · intro st sp1 sp2 hv h12
    exact vel_from_speed_mono st hv h12

/-- C5 (witness): the amended theorem applied at the concrete fire
`detect_hit 20 1 cexHitState 25 2 (1/5)`: the hit disarms the detector and
stamps the hit time 1. -/
theorem c5_hit_detector_amended_witness :
    (detect_hit 20 1 cexHitState 25 2 (1/5)).2.2.armed = false
    ∧ (detect_hit 20 1 cexHitState 25 2 (1/5)).2.2.last_hit_s = 1 := by
  have hfired : (detect_hit 20 1 cexHitState 25 2 (1/5)).1 = true := by
    unfold detect_hit
    rw [if_pos]
    refine ⟨rfl, by norm_num, by norm_num [cexHitState, hitEpsilon]⟩
  have h := c5_hit_detector_amended.1 20 1 cexHitState 25 2 (1/5) (by norm_num) hfired
  exact ⟨h.2.2.2.1, h.2.2.2.2⟩

/-- C6: a pending hit is read at most once — `consume` returns the pending
hit and clears the slot, so an immediately following second `consume`
returns `none` for the hit; the distance slot is not cleared by `consume`
and always reflects the most recently received distance (latest-wins). -/
theorem c6_consume_at_most_once :
    ∀ (b : SensorBuffer),
      ((b.consume).1.hit_velocity = b.pending_hit)
      ∧ ((b.consume).2.pending_hit = none)
      ∧ (((b.consume).2.consume).1.hit_velocity = none)
      ∧ ((b.consume).2.dist_cm = b.dist_cm)
      ∧ ((b.consume).1.dist_cm = b.dist_cm)
      ∧ (∀ (d now : ℚ), ((b.update_distance d now).consume).1.dist_cm = some d)
      ∧ (∀ (d now : ℚ), ((b.update_distance d now).consume).2.dist_cm = some d)
      ∧ (∀ (v : ℤ) (now : ℚ), ((b.update_hit v now).consume).1.hit_velocity = some v) := by
  intro b
  refine ⟨rfl, rfl, rfl, rfl, rfl, fun d now => rfl, fun d now => rfl, fun v now => rfl⟩

/-- C10: hit velocities crossing the telemetry channel are clamped into
`[0, 127]` rather than rejected.  The clamp `max(0, min(v, 127))` applied
on both sides satisfies `0 ≤ clamp_velocity v ≤ 127` and leaves an
in-range velocity unchanged; on the sender side, `OscTx.send_hit` on a
non-full open queue accepts any integer velocity and appends exactly the
`/hit` message carrying the clamped value (an out-of-range but well-typed
velocity is clamped, never dropped); on the router side the `/hit`
handler always stores the clamped value into the pending-hit slot. -/
theorem c10_velocity_clamp :
    ∀ (v : ℤ),
      (0 ≤ clamp_velocity v ∧ clamp_velocity v ≤ 127)
      ∧ (0 ≤ v → v ≤ 127 → clamp_velocity v = v)
      ∧ (∀ s : OscTxState, s.closed = false → s.queue.length < s.queue_size →
        send_hit s v
          = (true, { s with
              queue := s.queue
                ++ [⟨OscAddress.hit, ((clamp_velocity v : ℤ) : ℚ)⟩] }))
      ∧ (∀ (b : SensorBuffer) (now : ℚ),
        (on_hit b v now).pending_hit = some (clamp_velocity v)
        ∧ (on_hit b v now).last_rx_ts = now) := by
  intro v
  refine ⟨⟨?_, ?_⟩, ?_, ?_, fun b now => ⟨rfl, rfl⟩⟩
  · unfold clamp_velocity
    omega
  · unfold clamp_velocity
    omega
  · intro h1 h2
    unfold clamp_velocity
    omega
  · intro s hcl hroom
    unfold send_hit enqueue
    rw [if_neg (by rw [hcl]; exact Bool.false_ne_true),
      if_neg (by push_neg; exact hroom)]

/-- C10 (witness): the theorem applied at the out-of-range velocity 200 on
a concrete empty two-slot queue: the value is clamped to 127 and the
`/hit` message carrying it is accepted and appended, not dropped. -/
theorem c10_velocity_clamp_witness :
    clamp_velocity 200 = 127
    ∧ send_hit ⟨[], 2, false⟩ 200
      = (true, ⟨[⟨OscAddress.hit, ((clamp_velocity 200 : ℤ) : ℚ)⟩], 2, false⟩) := by
  constructor
  · decide
  · have h := (c10_velocity_clamp 200).2.2.1 ⟨[], 2, false⟩ rfl (by norm_num)
    rw [h]
    rfl

lemma drop_oldest_dist_of_first {pre : List OscMsg} {m : OscMsg} (post : List OscMsg)
    (hm : m.address = OscAddress.dist)
    (hpre : ∀ x ∈ pre, x.address ≠ OscAddress.dist) :
    drop_oldest_dist (pre ++ m :: post) = some (pre ++ post) := by
  induction pre with
  | nil =>
    unfold drop_oldest_dist
    simp [hm]
  | cons p rest ih =>
    unfold drop_oldest_dist
    rw [List.cons_append]
    simp only [if_neg (hpre p (List.mem_cons_self p rest))]
    rw [ih (fun x hx => hpre x (List.mem_cons_of_mem p hx))]
    rfl

lemma drop_oldest_dist_of_none {q : List OscMsg}
    (h : ∀ x ∈ q, x.address ≠ OscAddress.dist) :
    drop_oldest_dist q = none := by
  induction q with
  | nil => rfl
  | cons m rest ih =>
    unfold drop_oldest_dist
    rw [if_neg (h m (List.mem_cons_self m rest))]
    rw [ih (fun x hx => h x (List.mem_cons_of_mem m hx))]
    rfl

/-- C7: per-class drop policy of the bounded outbound queue.  When the
queue is full (and the sender not closed): a new distance message evicts
the oldest queued `/dist` message and is appended at the tail; if no
`/dist` message is queued the new distance message itself is dropped and
the queue is unchanged; a new hit or heartbeat message is itself dropped
with the queue unchanged (no eviction, no reordering).  When the queue is
not full, every message is simply appended. -/
theorem c7_enqueue_drop_policy :
    (∀ (s : OscTxState) (cm : ℚ) (pre post : List OscMsg) (m : OscMsg),
      s.closed = false → s.queue_size ≤ s.queue.length →
      s.queue = pre ++ m :: post → m.address = OscAddress.dist →
      (∀ x ∈ pre, x.address ≠ OscAddress.dist) →
      send_dist s cm
        = (true, { s with queue := (pre ++ post) ++ [⟨OscAddress.dist, cm⟩] }))
    ∧ (∀ (s : OscTxState) (cm : ℚ), s.closed = false →
      s.queue_size ≤ s.queue.length →
      (∀ x ∈ s.queue, x.address ≠ OscAddress.dist) →
      send_dist s cm = (false, s))
    ∧ (∀ (s : OscTxState) (v : ℤ), s.closed = false →
      s.queue_size ≤ s.queue.length → send_hit s v = (false, s))
    ∧ (∀ (s : OscTxState) (n : ℤ), s.closed = false →
      s.queue_size ≤ s.queue.length → send_alive s n = (false, s))
    ∧ (∀ (s : OscTxState) (a : OscAddress) (v : ℚ) (d : Bool),
      s.closed = false → s.queue.length < s.queue_size →
      enqueue s a v d = (true, { s with queue := s.queue ++ [⟨a, v⟩] })) := by
  refine ⟨?_, ?_, ?_, ?_, ?_⟩
  · intro s cm pre post m hcl hfull hq hm hpre
    unfold send_dist enqueue
    rw [if_neg (by rw [hcl]; exact Bool.false_ne_true), if_pos hfull, if_pos rfl]
    rw [hq, drop_oldest_dist_of_first post hm hpre]
  · intro s cm hcl hfull hnod
    unfold send_dist enqueue
    rw [if_neg (by rw [hcl]; exact Bool.false_ne_true), if_pos hfull, if_pos rfl]
    rw [drop_oldest_dist_of_none hnod]
  · intro s v hcl hfull
    unfold send_hit enqueue
    rw [if_neg (by rw [hcl]; exact Bool.false_ne_true), if_pos hfull,
      if_neg Bool.false_ne_true]
  · intro s n hcl hfull
    unfold send_alive enqueue
    rw [if_neg (by rw [hcl]; exact Bool.false_ne_true), if_pos hfull,
      if_neg Bool.false_ne_true]
  · intro s a v d hcl hroom
    unfold enqueue
    rw [if_neg (by rw [hcl]; exact Bool.false_ne_true),
      if_neg (by push_neg; exact hroom)]

/-- C7 (witness): on the concrete full queue `[hit 90, dist 30]` of
capacity 2, a new distance reading 45 evicts the oldest queued distance
message (30) and is appended, while a new hit is itself dropped with the
queue unchanged. -/
theorem c7_enqueue_drop_policy_witness :
    send_dist cexTxState 45
      = (true, { cexTxState with
          queue := [⟨OscAddress.hit, 90⟩, ⟨OscAddress.dist, 45⟩] })
    ∧ send_hit cexTxState 200 = (false, cexTxState) := by
  constructor
  · have h := c7_enqueue_drop_policy.1 cexTxState 45
      [⟨OscAddress.hit, 90⟩] [] ⟨OscAddress.dist, 30⟩ rfl (by norm_num [cexTxState])
      rfl rfl (by intro x hx; rw [List.mem_singleton] at hx; rw [hx]; decide)
    rw [h]
    rfl
  · exact c7_enqueue_drop_policy.2.2.1 cexTxState 200 rfl (by norm_num [cexTxState])

lemma note_events_open_append (acc : List (ℤ × ℤ)) (l1 l2 : List REvent) :
    note_events_open acc (l1 ++ l2) = note_events_open (note_events_open acc l1) l2 := by
  induction l1 generalizing acc with
  | nil => rfl
  | cons e rest ih =>
    cases e <;> simp only [List.cons_append, note_events_open] <;> exact ih _

lemma held_open_congr (cfg : RouterConfig) {r1 r2 : MusicRouter}
    (h : r1.state.held_note = r2.state.held_note) :
    held_open cfg r1 = held_open cfg r2 := by
  unfold held_open
  rw [h]

lemma release_note_open (cfg : RouterConfig) (r : MusicRouter) :
    note_events_open (held_open cfg r) (release_note cfg r).2
      = held_open cfg (release_note cfg r).1 := by
  unfold release_note held_open
  cases h : r.state.held_note with
  | none => simp [h, note_events_open]
  | some n => simp [h, note_events_open]

lemma release_note_held (cfg : RouterConfig) (r : MusicRouter) :
    (release_note cfg r).1.state.held_note = none := by
  unfold release_note
  cases h : r.state.held_note with
  | none => exact h
  | some n => rfl

lemma camera_track_state (app : AppState) (r : MusicRouter) :
    (camera_track app r).state = r.state := by
  unfold camera_track
  split <;> rfl

lemma apply_instrument_open (cfg : RouterConfig) (label : String) (r : MusicRouter) :
    note_events_open (held_open cfg r) (apply_instrument cfg label r).2
      = held_open cfg (apply_instrument cfg label r).1
    ∧ (apply_instrument cfg label r).1.state = r.state := by
  unfold apply_instrument
  split
  · constructor <;> rfl
  · cases h : ((cfg.instrument_map.lookup label).getD defaultEntry).program <;>
      constructor <;> rfl

lemma log_mode_changes_open (cfg : RouterConfig) (app : AppState) (r : MusicRouter) :
    note_events_open (held_open cfg r) (log_mode_changes cfg app r).2.2
      = held_open cfg (log_mode_changes cfg app r).1
    ∧ (log_mode_changes cfg app r).1.state = r.state := by
  unfold log_mode_changes
  have hct := camera_track_state app r
  split
  · rcases ha : apply_instrument cfg app.instrument_state
        { camera_track app r with
          last_instrument_state := some app.instrument_state } with ⟨r2, evs⟩
    have h := apply_instrument_open cfg app.instrument_state
        { camera_track app r with
          last_instrument_state := some app.instrument_state }
    rw [ha] at h
    dsimp only at h ⊢
    have hstate2 : r2.state = r.state := by
      rw [h.2]
      exact hct
    refine ⟨?_, hstate2⟩
    have hh : held_open cfg { camera_track app r with
        last_instrument_state := some app.instrument_state } = held_open cfg r := by
      apply held_open_congr
      show (camera_track app r).state.held_note = r.state.held_note
      rw [hct]
    rw [← hh]
    exact h.1
  · exact ⟨held_open_congr cfg (by rw [hct]) |>.symm, hct⟩

lemma instrument_change_block_open (cfg : RouterConfig) (app : AppState)
    (ic : Bool) (r : MusicRouter) :
    note_events_open (held_open cfg r) (instrument_change_block cfg app ic r).2
      = held_open cfg (instrument_change_block cfg app ic r).1 := by
  unfold instrument_change_block
  split
  · rcases hr : release_note cfg r with ⟨r2, out⟩
    dsimp only
    rw [note_events_open_append]
    have h := release_note_open cfg r
    rw [hr] at h
    dsimp only at h
    rw [h]
    split <;> rfl
  · rfl

lemma check_watchdog_open (cfg : RouterConfig) (sensor : SensorState) (now : ℚ)
    (r : MusicRouter) :
    note_events_open (held_open cfg r) (check_watchdog cfg sensor now r).2
      = held_open cfg (check_watchdog cfg sensor now r).1 := by
  unfold check_watchdog
  split
  · rcases hr : release_note cfg { r with watchdog_tripped := true } with ⟨r2, out⟩
    dsimp only
    rw [note_events_open_append]
    have hlog : note_events_open (held_open cfg r)
        (if r.watchdog_tripped = true then [] else [REvent.logWatchdogTrip])
        = held_open cfg r := by
      split <;> rfl
    rw [hlog]
    have h := release_note_open cfg { r with watchdog_tripped := true }
    rw [hr] at h
    dsimp only at h
    exact h
  · split <;> rfl

lemma handle_recording_edge_open (cfg : RouterConfig) (app : AppState) (now : ℚ)
    (r : MusicRouter) :
    note_events_open (held_open cfg r) (handle_recording_edge cfg app now r).2
      = held_open cfg (handle_recording_edge cfg app now r).1 := by
  unfold handle_recording_edge
  split
  · rcases hr : release_note cfg
        { r with state := { r.state with
            mute_until := now + cfg.countin_duration, was_recording := true } }
        with ⟨r2, out⟩
    dsimp only
    rw [note_events_open_append, note_events_open_append]
    have hcc : note_events_open (held_open cfg r)
        [REvent.controlChange cfg.control_channel cfg.record_cc 127]
        = held_open cfg r := rfl
    rw [hcc]
    have hins : note_events_open (held_open cfg r)
        (if cfg.insert_on_record_start = true
          then [REvent.controlChange cfg.control_channel cfg.insert_track_cc 127]
          else [])
        = held_open cfg r := by
      split <;> rfl
    rw [hins]
    have h := release_note_open cfg
        { r with state := { r.state with
            mute_until := now + cfg.countin_duration, was_recording := true } }
    rw [hr] at h
    dsimp only at h
    exact h
  · split <;> rfl

lemma tick_pre_open (cfg : RouterConfig) (app : AppState) (sensor : SensorState)
    (now : ℚ) (r : MusicRouter) :
    note_events_open (held_open cfg r) (tick_pre cfg app sensor now r).2
      = held_open cfg (tick_pre cfg app sensor now r).1 := by
  unfold tick_pre
  rcases hm : log_mode_changes cfg app r with ⟨r1, ic, evs1⟩
  rcases hb : instrument_change_block cfg app ic r1 with ⟨r2, evs2⟩
  rcases hw : check_watchdog cfg sensor now r2 with ⟨r3, evs3⟩
  rcases he : handle_recording_edge cfg app now r3 with ⟨r4, evs4⟩
  dsimp only
  rw [hb]
  dsimp only
  rw [hw]
  dsimp only
  rw [he]
  dsimp only
  have h1 := (log_mode_changes_open cfg app r).1
  rw [hm] at h1
  dsimp only at h1
  have h2 := instrument_change_block_open cfg app ic r1
  rw [hb] at h2
  dsimp only at h2
  have h3 := check_watchdog_open cfg sensor now r2
  rw [hw] at h3
  dsimp only at h3
  have h4 := handle_recording_edge_open cfg app now r3
  rw [he] at h4
  dsimp only at h4
  rw [note_events_open_append, note_events_open_append, note_events_open_append,
    h1, h2, h3, h4]

lemma tick_main_open (cfg : RouterConfig) (app : AppState) (sensor : SensorState)
    (now : ℚ) (r : MusicRouter) :
    note_events_open (held_open cfg r) (tick_main cfg app sensor now r).2
      = held_open cfg (tick_main cfg app sensor now r).1 := by
  unfold tick_main
  split
  · rcases hr : release_note cfg r with ⟨r2, out⟩
    dsimp only
    have h := release_note_open cfg r
    rw [hr] at h
    dsimp only at h
    exact h
  · split
    · rcases hr : release_note cfg r with ⟨r2, out⟩
      dsimp only
      have h := release_note_open cfg r
      rw [hr] at h
      dsimp only at h
      exact h
    · split
      · -- drum branch
        rcases hr : release_note cfg r with ⟨r2, out⟩
        dsimp only
        rw [note_events_open_append]
        have h := release_note_open cfg r
        rw [hr] at h
        dsimp only at h
        rw [h]
        have hheld : r2.state.held_note = none := by
          have := release_note_held cfg r
          rw [hr] at this
          exact this
        have hopen2 : held_open cfg r2 = [] := by
          unfold held_open
          rw [hheld]
        rw [hopen2]
        split
        · unfold trigger_drum
          simp [note_events_open, held_open, hheld]
        · simp [note_events_open, held_open, hheld]
      · split
        · -- lead branch, distance present, gate true
          split
          · rfl
          · rcases hr : release_note cfg r with ⟨r2, out⟩
            dsimp only
            rw [note_events_open_append]
            have h := release_note_open cfg r
            rw [hr] at h
            dsimp only at h
            rw [h]
            have hheld : r2.state.held_note = none := by
              have := release_note_held cfg r
              rw [hr] at this
              exact this
            unfold note_events_open held_open
            rw [hheld]
            rfl
        · -- gate false or no distance
          rcases hr : release_note cfg r with ⟨r2, out⟩
          dsimp only
          have h := release_note_open cfg r
          rw [hr] at h
          dsimp only at h
          exact h

/-- C2: the `held_note`/NoteOn pairing invariant.  At startup no note is
held and no NoteOn is outstanding, and every `process_tick` preserves the
correspondence: folding the tick's emitted events over the unmatched-NoteOn
multiset implied by the pre-tick `held_note` (exactly one lead-channel pair
when a note is held, none otherwise) yields exactly the multiset implied by
the post-tick `held_note`.  In particular `held_note = none` after a tick
implies no unmatched lead-channel NoteOn remains outstanding. -/
theorem c2_held_note_invariant :
    (∀ cfg : RouterConfig, (init_router cfg).state.held_note = none
      ∧ held_open cfg (init_router cfg) = [])
    ∧ (∀ (cfg : RouterConfig) (app : AppState) (sensor : SensorState)
        (now : ℚ) (r : MusicRouter),
      note_events_open (held_open cfg r) (process_tick cfg app sensor now r).2
        = held_open cfg (process_tick cfg app sensor now r).1) := by
  constructor
  · intro cfg
    exact ⟨rfl, rfl⟩
  · intro cfg app sensor now r
    unfold process_tick
    rcases hpre : tick_pre cfg app sensor now r with ⟨r1, pre⟩
    dsimp only
    rcases hmain : tick_main cfg app sensor now r1 with ⟨r2, out⟩
    dsimp only
    rw [note_events_open_append]
    have h1 := tick_pre_open cfg app sensor now r
    rw [hpre] at h1
    dsimp only at h1
    rw [h1]
    have h2 := tick_main_open cfg app sensor now r1
    rw [hmain] at h2
    dsimp only at h2
    exact h2

lemma router_eta_wt (r : MusicRouter) (h : r.watchdog_tripped = false) :
    { r with watchdog_tripped := false } = r := by
  cases r
  dsimp only at h
  rw [← h]

lemma log_mode_changes_noop (cfg : RouterConfig) (app : AppState) (r : MusicRouter)
    (hc : r.last_camera_state = some app.camera_state)
    (hi : r.last_instrument_state = some app.instrument_state) :
    log_mode_changes cfg app r = (r, false, []) := by
  have hct : camera_track app r = r := by
    unfold camera_track
    rw [hc]
    simp
  unfold log_mode_changes
  rw [hct, hi]
  simp

lemma instrument_change_block_false (cfg : RouterConfig) (app : AppState)
    (r : MusicRouter) : instrument_change_block cfg app false r = (r, []) := by
  rfl

lemma check_watchdog_fresh (cfg : RouterConfig) (sensor : SensorState) (now : ℚ)
    (r : MusicRouter) (h : now - sensor.last_rx_ts < cfg.watchdog_s)
    (ht : r.watchdog_tripped = false) :
    check_watchdog cfg sensor now r = (r, []) := by
  unfold check_watchdog
  rw [if_neg (not_le.mpr h), ht, router_eta_wt r ht]
  simp

lemma handle_recording_edge_noop (cfg : RouterConfig) (app : AppState) (now : ℚ)
    (r : MusicRouter) (h : app.recording = r.state.was_recording) :
    handle_recording_edge cfg app now r = (r, []) := by
  unfold handle_recording_edge
  cases hb : r.state.was_recording
  · rw [hb] at h
    rw [if_neg (by rw [h]; simp), if_neg (by simp [h])]
  · rw [hb] at h
    rw [if_neg (by simp), if_neg (by simp [h])]

lemma tick_pre_noop (cfg : RouterConfig) (app : AppState) (sensor : SensorState)
    (now : ℚ) (r : MusicRouter)
    (hc : r.last_camera_state = some app.camera_state)
    (hi : r.last_instrument_state = some app.instrument_state)
    (hw : now - sensor.last_rx_ts < cfg.watchdog_s)
    (ht : r.watchdog_tripped = false)
    (hrec : app.recording = r.state.was_recording) :
    tick_pre cfg app sensor now r = (r, []) := by
  unfold tick_pre
  rw [log_mode_changes_noop cfg app r hc hi]
  dsimp only
  rw [instrument_change_block_false]
  dsimp only
  rw [check_watchdog_fresh cfg sensor now r hw ht]
  dsimp only
  rw [handle_recording_edge_noop cfg app now r hrec]
  simp

lemma release_note_no_on (cfg : RouterConfig) (r : MusicRouter) (c n v : ℤ) :
    REvent.noteOn c n v ∉ (release_note cfg r).2 := by
  unfold release_note
  cases r.state.held_note <;> simp

lemma release_note_mute (cfg : RouterConfig) (r : MusicRouter) :
    (release_note cfg r).1.state.mute_until = r.state.mute_until := by
  unfold release_note
  cases r.state.held_note <;> rfl

lemma tick_main_same_note (cfg : RouterConfig) (app : AppState)
    (sensor : SensorState) (now : ℚ) (r : MusicRouter) (d : ℚ)
    (hplay : app.camera_state = "play") (hmute : r.state.mute_until ≤ now)
    (hdrum : r.current_is_drum = false) (hdist : sensor.dist_cm = some d)
    (hgate : app.is_note_being_played = true)
    (hheld : r.state.held_note = some (quantize_note
      ((pyRound (d / DIST_STEP_CM) : ℚ) * DIST_STEP_CM) cfg.mapping none)) :
    tick_main cfg app sensor now r = (r, []) := by
  unfold tick_main
  rw [if_neg (by rw [hplay]; simp), if_neg (not_lt.mpr hmute),
    if_neg (by rw [hdrum]; simp), hdist, hgate]
  dsimp only
  rw [if_pos hheld]

lemma tick_main_new_note (cfg : RouterConfig) (app : AppState)
    (sensor : SensorState) (now : ℚ) (r : MusicRouter) (d : ℚ)
    (hplay : app.camera_state = "play") (hmute : r.state.mute_until ≤ now)
    (hdrum : r.current_is_drum = false) (hdist : sensor.dist_cm = some d)
    (hgate : app.is_note_being_played = true)
    (hne : r.state.held_note ≠ some (quantize_note
      ((pyRound (d / DIST_STEP_CM) : ℚ) * DIST_STEP_CM) cfg.mapping none)) :
    tick_main cfg app sensor now r
      = ({ (release_note cfg r).1 with state := { (release_note cfg r).1.state with
            held_note := some (quantize_note
              ((pyRound (d / DIST_STEP_CM) : ℚ) * DIST_STEP_CM) cfg.mapping none),
            last_note_sent := some (quantize_note
              ((pyRound (d / DIST_STEP_CM) : ℚ) * DIST_STEP_CM) cfg.mapping none),
            was_note_playing := true } },
         (release_note cfg r).2
           ++ [REvent.noteOn cfg.lead_channel
             (quantize_note ((pyRound (d / DIST_STEP_CM) : ℚ) * DIST_STEP_CM)
               cfg.mapping none) cfg.lead_velocity]) := by
  unfold tick_main
  rw [if_neg (by rw [hplay]; simp), if_neg (not_lt.mpr hmute),
    if_neg (by rw [hdrum]; simp), hdist, hgate]
  dsimp only
  rw [if_neg hne]

lemma tick_main_mute (cfg : RouterConfig) (app : AppState) (sensor : SensorState)
    (now : ℚ) (r : MusicRouter) :
    (tick_main cfg app sensor now r).1.state.mute_until = r.state.mute_until := by
  unfold tick_main
  split
  · rcases hr : release_note cfg r with ⟨r2, out⟩
    dsimp only
    have := release_note_mute cfg r
    rw [hr] at this
    exact this
  · split
    · rcases hr : release_note cfg r with ⟨r2, out⟩
      dsimp only
      have := release_note_mute cfg r
      rw [hr] at this
      exact this
    · split
      · rcases hr : release_note cfg r with ⟨r2, out⟩
        dsimp only
        have := release_note_mute cfg r
        rw [hr] at this
        exact this
      · split
        · split
          · rfl
          · rcases hr : release_note cfg r with ⟨r2, out⟩
            dsimp only
            have := release_note_mute cfg r
            rw [hr] at this
            exact this
        · rcases hr : release_note cfg r with ⟨r2, out⟩
          dsimp only
          have := release_note_mute cfg r
          rw [hr] at this
          exact this

lemma tick_main_no_on (cfg : RouterConfig) (app : AppState) (sensor : SensorState)
    (now : ℚ) (r : MusicRouter) (hm : now < r.state.mute_until) (c n v : ℤ) :
    REvent.noteOn c n v ∉ (tick_main cfg app sensor now r).2 := by
  by_cases hcam : app.camera_state ≠ "play"
  · unfold tick_main
    rw [if_pos hcam]
    rcases hr : release_note cfg r with ⟨r2, out⟩
    dsimp only
    have := release_note_no_on cfg r c n v
    rw [hr] at this
    exact this
  · unfold tick_main
    rw [if_neg hcam, if_pos hm]
    rcases hr : release_note cfg r with ⟨r2, out⟩
    dsimp only
    have := release_note_no_on cfg r c n v
    rw [hr] at this
    exact this

lemma apply_instrument_no_on (cfg : RouterConfig) (label : String)
    (r : MusicRouter) (c n v : ℤ) :
    REvent.noteOn c n v ∉ (apply_instrument cfg label r).2 := by
  unfold apply_instrument
  split
  · simp
  · cases ((cfg.instrument_map.lookup label).getD defaultEntry).program <;> simp

lemma log_mode_changes_no_on (cfg : RouterConfig) (app : AppState)
    (r : MusicRouter) (c n v : ℤ) :
    REvent.noteOn c n v ∉ (log_mode_changes cfg app r).2.2 := by
  unfold log_mode_changes
  split
  · rcases ha : apply_instrument cfg app.instrument_state
        { camera_track app r with
          last_instrument_state := some app.instrument_state } with ⟨r2, evs⟩
    dsimp only
    have := apply_instrument_no_on cfg app.instrument_state
        { camera_track app r with
          last_instrument_state := some app.instrument_state } c n v
    rw [ha] at this
    exact this
  · simp

lemma instrument_change_block_no_on (cfg : RouterConfig) (app : AppState)
    (ic : Bool) (r : MusicRouter) (c n v : ℤ) :
    REvent.noteOn c n v ∉ (instrument_change_block cfg app ic r).2 := by
  unfold instrument_change_block
  split
  · rcases hr : release_note cfg r with ⟨r2, out⟩
    dsimp only
    rw [List.mem_append]
    push_neg
    have h1 := release_note_no_on cfg r c n v
    rw [hr] at h1
    refine ⟨h1, ?_⟩
    split <;> simp
  · simp

lemma check_watchdog_no_on (cfg : RouterConfig) (sensor : SensorState) (now : ℚ)
    (r : MusicRouter) (c n v : ℤ) :
    REvent.noteOn c n v ∉ (check_watchdog cfg sensor now r).2 := by
  unfold check_watchdog
  split
  · rcases hr : release_note cfg { r with watchdog_tripped := true } with ⟨r2, out⟩
    dsimp only
    rw [List.mem_append]
    push_neg
    have h1 := release_note_no_on cfg { r with watchdog_tripped := true } c n v
    rw [hr] at h1
    refine ⟨?_, h1⟩
    split <;> simp
  · dsimp only
    split <;> simp

lemma handle_recording_edge_no_on (cfg : RouterConfig) (app : AppState) (now : ℚ)
    (r : MusicRouter) (c n v : ℤ) :
    REvent.noteOn c n v ∉ (handle_recording_edge cfg app now r).2 := by
  unfold handle_recording_edge
  split
  · rcases hr : release_note cfg
        { r with state := { r.state with
            mute_until := now + cfg.countin_duration, was_recording := true } }
        with ⟨r2, out⟩
    dsimp only
    intro hmem
    rcases List.mem_append.mp hmem with h | h
    · rcases List.mem_append.mp h with h2 | h2
      · simp at h2
      · revert h2
        split <;> simp
    · have h1 := release_note_no_on cfg
          { r with state := { r.state with
              mute_until := now + cfg.countin_duration, was_recording := true } } c n v
      rw [hr] at h1
      exact h1 h
  · split <;> simp

lemma tick_pre_no_on (cfg : RouterConfig) (app : AppState) (sensor : SensorState)
    (now : ℚ) (r : MusicRouter) (c n v : ℤ) :
    REvent.noteOn c n v ∉ (tick_pre cfg app sensor now r).2 := by
  unfold tick_pre
  rcases hm : log_mode_changes cfg app r with ⟨r1, ic, evs1⟩
  dsimp only
  rcases hb : instrument_change_block cfg app ic r1 with ⟨r2, evs2⟩
  dsimp only
  rcases hw : check_watchdog cfg sensor now r2 with ⟨r3, evs3⟩
  dsimp only
  rcases he : handle_recording_edge cfg app now r3 with ⟨r4, evs4⟩
  dsimp only
  have h1 := log_mode_changes_no_on cfg app r c n v
  rw [hm] at h1
  have h2 := instrument_change_block_no_on cfg app ic r1 c n v
  rw [hb] at h2
  have h3 := check_watchdog_no_on cfg sensor now r2 c n v
  rw [hw] at h3
  have h4 := handle_recording_edge_no_on cfg app now r3 c n v
  rw [he] at h4
  intro hmem
  rcases List.mem_append.mp hmem with h | h
  · rcases List.mem_append.mp h with hg | hg
    · rcases List.mem_append.mp hg with hk | hk
      · exact h1 hk
      · exact h2 hk
    · exact h3 hg
  · exact h4 h

lemma snap30 : (pyRound ((30:ℚ) / DIST_STEP_CM) : ℚ) * DIST_STEP_CM = 30 := by
  have h : (30:ℚ) / DIST_STEP_CM = ((6:ℤ) : ℚ) := by norm_num [DIST_STEP_CM]
  rw [h, pyRound_intCast]
  norm_num [DIST_STEP_CM]

lemma snap45 : (pyRound ((45:ℚ) / DIST_STEP_CM) : ℚ) * DIST_STEP_CM = 45 := by
  have h : (45:ℚ) / DIST_STEP_CM = ((9:ℤ) : ℚ) := by norm_num [DIST_STEP_CM]
  rw [h, pyRound_intCast]
  norm_num [DIST_STEP_CM]

lemma q30 : quantize_note 30 testMapping none = 56 := by
  have hc : clamp_distance 30 testMapping = 30 := by
    norm_num [clamp_distance, testMapping]
  have hi : interpolate_note 30 testMapping = 56 := by
    norm_num [interpolate_note, testMapping]
  have ht : pyTrunc ((56:ℚ) + 1/2) = 56 := by
    apply pyTrunc_eq_of_nonneg <;> norm_num
  simp only [quantize_note, hc, hi, ht]
  norm_num [clip_quantized, testMapping]

lemma q45 : quantize_note 45 testMapping none = 64 := by
  have hc : clamp_distance 45 testMapping = 45 := by
    norm_num [clamp_distance, testMapping]
  have hi : interpolate_note 45 testMapping = 64 := by
    norm_num [interpolate_note, testMapping]
  have ht : pyTrunc ((64:ℚ) + 1/2) = 64 := by
    apply pyTrunc_eq_of_nonneg <;> norm_num
  simp only [quantize_note, hc, hi, ht]
  norm_num [clip_quantized, testMapping]

lemma q30snap : quantize_note ((pyRound ((30:ℚ) / DIST_STEP_CM) : ℚ) * DIST_STEP_CM)
    testConfig.mapping none = 56 := by
  rw [snap30]
  exact q30

lemma q45snap : quantize_note ((pyRound ((45:ℚ) / DIST_STEP_CM) : ℚ) * DIST_STEP_CM)
    testConfig.mapping none = 64 := by
  rw [snap45]
  exact q45

lemma scenario_log1 : log_mode_changes testConfig playApp (init_router testConfig)
    = (scenarioRouter0, true, []) := by
  rfl

lemma scenario_pre1 : tick_pre testConfig playApp ⟨some 30, none, 0⟩ 0
    (init_router testConfig) = (scenarioRouter0, []) := by
  unfold tick_pre
  rw [scenario_log1]
  dsimp only
  rw [show instrument_change_block testConfig playApp true scenarioRouter0
      = (scenarioRouter0, []) from rfl]
  dsimp only
  rw [check_watchdog_fresh testConfig ⟨some 30, none, 0⟩ 0 scenarioRouter0
    (by norm_num [testConfig]) rfl]
  dsimp only
  rw [handle_recording_edge_noop testConfig playApp 0 scenarioRouter0 rfl]
  simp

lemma scenario_main1 : tick_main testConfig playApp ⟨some 30, none, 0⟩ 0
    scenarioRouter0 = (scenarioRouter1, [REvent.noteOn 1 56 90]) := by
  have h := tick_main_new_note testConfig playApp ⟨some 30, none, 0⟩ 0
    scenarioRouter0 30 rfl (by norm_num [scenarioRouter0]) rfl rfl rfl
    (by rw [q30snap]; simp [scenarioRouter0])
  rw [q30snap] at h
  rw [h]
  rfl

lemma scenario_tick1 : process_tick testConfig playApp ⟨some 30, none, 0⟩ 0
    (init_router testConfig) = (scenarioRouter1, [REvent.noteOn 1 56 90]) := by
  unfold process_tick
  rw [scenario_pre1]
  dsimp only
  rw [scenario_main1]
  rfl

lemma scenario_tick2 : process_tick testConfig playApp ⟨some 30, none, 1/100⟩
    (1/100) scenarioRouter1 = (scenarioRouter1, []) := by
  unfold process_tick
  rw [tick_pre_noop testConfig playApp ⟨some 30, none, 1/100⟩ (1/100)
    scenarioRouter1 rfl rfl (by norm_num [testConfig]) rfl rfl]
  dsimp only
  rw [tick_main_same_note testConfig playApp ⟨some 30, none, 1/100⟩ (1/100)
    scenarioRouter1 30 rfl (by norm_num [scenarioRouter1]) rfl rfl rfl
    (by rw [q30snap]; rfl)]
  rfl

lemma scenario_tick3 : process_tick testConfig playApp ⟨some 45, none, 1/50⟩
    (1/50) scenarioRouter1
    = (scenarioRouter3, [REvent.noteOff 1 56 0, REvent.noteOn 1 64 90]) := by
  unfold process_tick
  rw [tick_pre_noop testConfig playApp ⟨some 45, none, 1/50⟩ (1/50)
    scenarioRouter1 rfl rfl (by norm_num [testConfig]) rfl rfl]
  dsimp only
  have h := tick_main_new_note testConfig playApp ⟨some 45, none, 1/50⟩ (1/50)
    scenarioRouter1 45 rfl (by norm_num [scenarioRouter1]) rfl rfl rfl
    (by rw [q45snap]; simp [scenarioRouter1])
  rw [q45snap] at h
  rw [h]
  rfl

/-- C3: change-only note policy of the pitched-instrument path, plus the
concrete scenario.  On a play-mode tick with the note gate true, a distance
available, no instrument/camera change, a fresh watchdog, no recording edge
and no count-in mute: if the quantized (snapped) note equals the held note
the tick emits nothing and leaves the router untouched; if it differs from
the held note the tick emits exactly NoteOff(old) followed by NoteOn(new)
and holds the new note.  Concretely (test configuration, distance 30 cm for
two ticks, then 45 cm): exactly one NoteOn(56) on the first tick, nothing
on the second, then exactly NoteOff(56) followed by NoteOn(64). -/
theorem c3_change_only_policy :
    (∀ (cfg : RouterConfig) (app : AppState) (sensor : SensorState) (now : ℚ)
        (r : MusicRouter) (d : ℚ),
      app.camera_state = "play" →
      app.is_note_being_played = true →
      sensor.dist_cm = some d →
      r.last_camera_state = some app.camera_state →
      r.last_instrument_state = some app.instrument_state →
      now - sensor.last_rx_ts < cfg.watchdog_s →
      r.watchdog_tripped = false →
      app.recording = r.state.was_recording →
      r.state.mute_until ≤ now →
      r.current_is_drum = false →
      ((r.state.held_note = some (quantize_note
          ((pyRound (d / DIST_STEP_CM) : ℚ) * DIST_STEP_CM) cfg.mapping none) →
        process_tick cfg app sensor now r = (r, []))
      ∧ (∀ old : ℤ, r.state.held_note = some old →
        old ≠ quantize_note ((pyRound (d / DIST_STEP_CM) : ℚ) * DIST_STEP_CM)
          cfg.mapping none →
        (process_tick cfg app sensor now r).2
          = [REvent.noteOff cfg.lead_channel old 0,
             REvent.noteOn cfg.lead_channel
               (quantize_note ((pyRound (d / DIST_STEP_CM) : ℚ) * DIST_STEP_CM)
                 cfg.mapping none) cfg.lead_velocity]
        ∧ (process_tick cfg app sensor now r).1.state.held_note
          = some (quantize_note ((pyRound (d / DIST_STEP_CM) : ℚ) * DIST_STEP_CM)
              cfg.mapping none))))
    ∧ process_tick testConfig playApp ⟨some 30, none, 0⟩ 0 (init_router testConfig)
        = (scenarioRouter1, [REvent.noteOn 1 56 90])
    ∧ process_tick testConfig playApp ⟨some 30, none, 1/100⟩ (1/100) scenarioRouter1
        = (scenarioRouter1, [])
    ∧ process_tick testConfig playApp ⟨some 45, none, 1/50⟩ (1/50) scenarioRouter1
        = (scenarioRouter3, [REvent.noteOff 1 56 0, REvent.noteOn 1 64 90]) := by
  refine ⟨?_, scenario_tick1, scenario_tick2, scenario_tick3⟩
  intro cfg app sensor now r d hplay hgate hdist hcam hinstr hwd ht hrec hmute hdrum
  constructor
  · intro hheld
    unfold process_tick
    rw [tick_pre_noop cfg app sensor now r hcam hinstr hwd ht hrec]
    dsimp only
    rw [tick_main_same_note cfg app sensor now r d hplay hmute hdrum hdist hgate hheld]
    rfl
  · intro old hold hne
    have hne2 : r.state.held_note ≠ some (quantize_note
        ((pyRound (d / DIST_STEP_CM) : ℚ) * DIST_STEP_CM) cfg.mapping none) := by
      rw [hold]
      simp [hne]
    have hr : release_note cfg r
        = ({ r with state := { r.state with held_note := none, last_note_sent := none } },
           [REvent.noteOff cfg.lead_channel old 0]) := by
      unfold release_note
      rw [hold]
    unfold process_tick
    rw [tick_pre_noop cfg app sensor now r hcam hinstr hwd ht hrec]
    dsimp only
    rw [tick_main_new_note cfg app sensor now r d hplay hmute hdrum hdist hgate hne2,
      hr]
    dsimp only
    exact ⟨rfl, rfl⟩

/-- C3 (witness): the change-only theorem applied at the concrete second
scenario tick (distance still 30 cm, note 56 already held): the tick leaves
the router untouched and emits nothing. -/
theorem c3_change_only_policy_witness :
    process_tick testConfig playApp ⟨some 30, none, 1/100⟩ (1/100) scenarioRouter1
      = (scenarioRouter1, []) := by
  exact (c3_change_only_policy.1 testConfig playApp ⟨some 30, none, 1/100⟩ (1/100)
    scenarioRouter1 30 rfl rfl rfl rfl rfl (by norm_num [testConfig]) rfl rfl
    (by norm_num [scenarioRouter1]) rfl).1 (by rw [q30snap]; rfl)

lemma c1_pre : tick_pre testConfig playApp ⟨some 30, none, 0⟩ 10 scenarioRouter1
    = (c1MidRouter, [REvent.logWatchdogTrip, REvent.noteOff 1 56 0]) := by
  unfold tick_pre
  rw [log_mode_changes_noop testConfig playApp scenarioRouter1 rfl rfl]
  dsimp only
  rw [instrument_change_block_false]
  dsimp only
  rw [show check_watchdog testConfig ⟨some 30, none, 0⟩ 10 scenarioRouter1
      = (c1MidRouter, [REvent.logWatchdogTrip, REvent.noteOff 1 56 0]) from by
    unfold check_watchdog
    rw [if_pos (by norm_num [testConfig])]
    rfl]
  dsimp only
  rw [handle_recording_edge_noop testConfig playApp 10 c1MidRouter rfl]
  simp

/-- C1 (code-bug evaluation): a stale tick with the note gate open does
NOT stop after the watchdog release.  With `watchdog_s = 5`, a sensor
snapshot last received at `t = 0` and `now = 10`, camera in play mode,
note gate true, note 56 held and the stale distance 30 cm still buffered,
`process_tick` emits the trip log and NoteOff(56) — and then immediately
re-emits NoteOn(56) in the same tick, ending with the note held again.
The claim (and spec steps 2 and 4 of §4.5) requires the stale tick to
record "not sounding" and emit no note output. -/
theorem c1_watchdog_code_bug :
    testConfig.watchdog_s ≤ (10:ℚ) - (0:ℚ)
    ∧ process_tick testConfig playApp ⟨some 30, none, 0⟩ 10 scenarioRouter1
      = (c1Router, [REvent.logWatchdogTrip, REvent.noteOff 1 56 0,
          REvent.noteOn 1 56 90])
    ∧ REvent.noteOn 1 56 90
      ∈ (process_tick testConfig playApp ⟨some 30, none, 0⟩ 10 scenarioRouter1).2
    ∧ (process_tick testConfig playApp ⟨some 30, none, 0⟩ 10
        scenarioRouter1).1.state.held_note = some 56 := by
  have hmain : tick_main testConfig playApp ⟨some 30, none, 0⟩ 10 c1MidRouter
      = (c1Router, [REvent.noteOn 1 56 90]) := by
    have h := tick_main_new_note testConfig playApp ⟨some 30, none, 0⟩ 10
      c1MidRouter 30 rfl (by norm_num [c1MidRouter]) rfl rfl rfl
      (by rw [q30snap]; simp [c1MidRouter])
    rw [q30snap] at h
    rw [h]
    rfl
  have hfull : process_tick testConfig playApp ⟨some 30, none, 0⟩ 10 scenarioRouter1
      = (c1Router, [REvent.logWatchdogTrip, REvent.noteOff 1 56 0,
          REvent.noteOn 1 56 90]) := by
    unfold process_tick
    rw [c1_pre]
    dsimp only
    rw [hmain]
    rfl
  refine ⟨by norm_num [testConfig], hfull, ?_, ?_⟩
  · rw [hfull]
    simp
  · rw [hfull]
    rfl

lemma c8_edge_eval : handle_recording_edge testConfig recApp 0 scenarioRouter1
    = ({ scenarioRouter1 with state := { scenarioRouter1.state with
          held_note := none, last_note_sent := none, mute_until := 2,
          was_recording := true } },
       [REvent.controlChange 1 20 127, REvent.noteOff 1 56 0]) := by
  unfold handle_recording_edge
  rw [if_pos ⟨rfl, rfl⟩]
  rw [show (0:ℚ) + testConfig.countin_duration = 2 from by
    norm_num [RouterConfig.countin_duration, testConfig]]
  rfl

lemma c8_rise_tick : process_tick testConfig recApp ⟨some 30, none, 0⟩ 0
    scenarioRouter1
    = (c8MutedRouter, [REvent.controlChange 1 20 127, REvent.noteOff 1 56 0]) := by
  unfold process_tick tick_pre
  rw [log_mode_changes_noop testConfig recApp scenarioRouter1 rfl rfl]
  dsimp only
  rw [instrument_change_block_false]
  dsimp only
  rw [check_watchdog_fresh testConfig ⟨some 30, none, 0⟩ 0 scenarioRouter1
    (by norm_num [testConfig]) rfl]
  dsimp only
  rw [c8_edge_eval]
  dsimp only
  rw [show tick_main testConfig recApp ⟨some 30, none, 0⟩ 0
      ({ scenarioRouter1 with state := { scenarioRouter1.state with
          held_note := none, last_note_sent := none, mute_until := 2,
          was_recording := true } })
      = (c8MutedRouter, []) from by
    unfold tick_main
    rw [if_neg (by simp [recApp]), if_pos (by norm_num)]
    rfl]
  rfl

lemma c8_muted_tick : process_tick testConfig recApp ⟨some 30, none, 19/10⟩
    (19/10) c8MutedRouter = (c8MutedRouter, []) := by
  unfold process_tick
  rw [tick_pre_noop testConfig recApp ⟨some 30, none, 19/10⟩ (19/10)
    c8MutedRouter rfl rfl (by norm_num [testConfig]) rfl rfl]
  dsimp only
  rw [show tick_main testConfig recApp ⟨some 30, none, 19/10⟩ (19/10) c8MutedRouter
      = (c8MutedRouter, []) from by
    unfold tick_main
    rw [if_neg (by simp [recApp]), if_pos (by norm_num [c8MutedRouter])]
    rfl]
  rfl

lemma c8_free_tick : process_tick testConfig recApp ⟨some 30, none, 2⟩ 2
    c8MutedRouter
    = ({ c8MutedRouter with state := { c8MutedRouter.state with
          held_note := some 56, last_note_sent := some 56,
          was_note_playing := true } },
       [REvent.noteOn 1 56 90]) := by
  unfold process_tick
  rw [tick_pre_noop testConfig recApp ⟨some 30, none, 2⟩ 2 c8MutedRouter rfl rfl
    (by norm_num [testConfig]) rfl rfl]
  dsimp only
  have h := tick_main_new_note testConfig recApp ⟨some 30, none, 2⟩ 2
    c8MutedRouter 30 rfl (by norm_num [c8MutedRouter]) rfl rfl rfl
    (by rw [q30snap]; simp [c8MutedRouter])
  rw [q30snap] at h
  rw [h]
  rfl

lemma c8_fall_tick : process_tick testConfig playApp ⟨some 30, none, 1⟩ 1
    c8MutedRouter = (c8FallRouter, [REvent.controlChange 1 20 127]) := by
  unfold process_tick tick_pre
  rw [log_mode_changes_noop testConfig playApp c8MutedRouter rfl rfl]
  dsimp only
  rw [instrument_change_block_false]
  dsimp only
  rw [check_watchdog_fresh testConfig ⟨some 30, none, 1⟩ 1 c8MutedRouter
    (by norm_num [testConfig]) rfl]
  dsimp only
  rw [show handle_recording_edge testConfig playApp 1 c8MutedRouter
      = ({ c8MutedRouter with state := { c8MutedRouter.state with
            was_recording := false } },
         [REvent.controlChange 1 20 127]) from by
    unfold handle_recording_edge
    rw [if_neg (by simp [c8MutedRouter]), if_pos ⟨rfl, rfl⟩]
    rfl]
  dsimp only
  rw [show tick_main testConfig playApp ⟨some 30, none, 1⟩ 1
      ({ c8MutedRouter with state := { c8MutedRouter.state with
          was_recording := false } })
      = (c8FallRouter, []) from by
    unfold tick_main
    rw [if_neg (by simp [playApp]), if_pos (by norm_num [c8MutedRouter])]
    rfl]
  rfl

lemma c8_after_fall_tick : process_tick testConfig playApp ⟨some 30, none, 3/2⟩
    (3/2) c8FallRouter = (c8FallRouter, []) := by
  unfold process_tick
  rw [tick_pre_noop testConfig playApp ⟨some 30, none, 3/2⟩ (3/2) c8FallRouter
    rfl rfl (by norm_num [testConfig]) rfl rfl]
  dsimp only
  rw [show tick_main testConfig playApp ⟨some 30, none, 3/2⟩ (3/2) c8FallRouter
      = (c8FallRouter, []) from by
    unfold tick_main
    rw [if_neg (by simp [playApp]), if_pos (by norm_num [c8FallRouter])]
    rfl]
  rfl

/-- C8 (counterexample): the true→false recording edge does NOT clear the
count-in suppression.  Recording started at `t = 0` (mute until `t = 2`)
and stopped at `t = 1`: the falling-edge tick emits the record control
change and resets the flag, but `mute_until` is left at 2, and the
subsequent tick at `t = 1.5` — camera in play mode, note gate true,
distance available, recording long stopped — still emits nothing. -/
theorem c8_suppression_counterexample :
    process_tick testConfig playApp ⟨some 30, none, 1⟩ 1 c8MutedRouter
      = (c8FallRouter, [REvent.controlChange 1 20 127])
    ∧ c8FallRouter.state.mute_until = 2
    ∧ process_tick testConfig playApp ⟨some 30, none, 3/2⟩ (3/2) c8FallRouter
      = (c8FallRouter, []) := by
  exact ⟨c8_fall_tick, rfl, c8_after_fall_tick⟩

/-- C8 (amended): on the false→true recording edge, `process_tick`'s edge
handler emits the record control change (plus the insert-track control
change when configured), sets `mute_until = now + countin_beats·60/bpm`
and releases any held note; while `now < mute_until` no NoteOn is emitted
by any tick; on the true→false edge it emits the record control change
again and resets the flag, but `mute_until` is NOT cleared — the mute
persists until it expires on its own.  For `countin_beats = 4`,
`bpm = 120`, recording starting at `t = 0`: `countin_duration = 2`,
a tick at `t = 1.9` emits nothing, and the first NoteOn is permitted at
`t = 2.0` exactly. -/
theorem c8_recording_edge_amended :
    (∀ (cfg : RouterConfig) (app : AppState) (now : ℚ) (r : MusicRouter),
      r.state.was_recording = false → app.recording = true →
      (handle_recording_edge cfg app now r).1.state.mute_until
          = now + cfg.countin_duration
      ∧ (handle_recording_edge cfg app now r).1.state.was_recording = true
      ∧ (r.state.held_note = none →
          (handle_recording_edge cfg app now r).2
            = [REvent.controlChange cfg.control_channel cfg.record_cc 127]
              ++ (if cfg.insert_on_record_start = true
                  then [REvent.controlChange cfg.control_channel
                    cfg.insert_track_cc 127]
                  else []))
      ∧ (∀ n : ℤ, r.state.held_note = some n →
          (handle_recording_edge cfg app now r).2
            = [REvent.controlChange cfg.control_channel cfg.record_cc 127]
              ++ (if cfg.insert_on_record_start = true
                  then [REvent.controlChange cfg.control_channel
                    cfg.insert_track_cc 127]
                  else [])
              ++ [REvent.noteOff cfg.lead_channel n 0]))
    ∧ (∀ (cfg : RouterConfig) (app : AppState) (now : ℚ) (r : MusicRouter),
      r.state.was_recording = true → app.recording = false →
      handle_recording_edge cfg app now r
        = ({ r with state := { r.state with was_recording := false } },
           [REvent.controlChange cfg.control_channel cfg.record_cc 127])
      ∧ (handle_recording_edge cfg app now r).1.state.mute_until
          = r.state.mute_until)
    ∧ (∀ (cfg : RouterConfig) (app : AppState) (sensor : SensorState) (now : ℚ)
        (r : MusicRouter) (c n v : ℤ),
      now < (process_tick cfg app sensor now r).1.state.mute_until →
      REvent.noteOn c n v ∉ (process_tick cfg app sensor now r).2)
    ∧ testConfig.countin_duration = 2
    ∧ process_tick testConfig recApp ⟨some 30, none, 0⟩ 0 scenarioRouter1
        = (c8MutedRouter, [REvent.controlChange 1 20 127, REvent.noteOff 1 56 0])
    ∧ process_tick testConfig recApp ⟨some 30, none, 19/10⟩ (19/10) c8MutedRouter
        = (c8MutedRouter, [])
    ∧ (process_tick testConfig recApp ⟨some 30, none, 2⟩ 2 c8MutedRouter).2
        = [REvent.noteOn 1 56 90] := by
  refine ⟨?_, ?_, ?_, by norm_num [RouterConfig.countin_duration, testConfig],
    c8_rise_tick, c8_muted_tick, by rw [c8_free_tick]⟩
  · intro cfg app now r h1 h2
    unfold handle_recording_edge
    rw [if_pos ⟨h1, h2⟩]
    unfold release_note
    dsimp only
    cases hh : r.state.held_note with
    | none =>
      refine ⟨rfl, rfl, fun _ => by simp, fun n hn => ?_⟩
      simp at hn
    | some m =>
      refine ⟨rfl, rfl, fun hnone => by simp at hnone, fun n hn => ?_⟩
      have : n = m := by
        cases hn
        rfl
      rw [this]
  · intro cfg app now r h1 h2
    unfold handle_recording_edge
    rw [if_neg (by simp [h1]), if_pos ⟨h1, h2⟩]
    exact ⟨rfl, rfl⟩
  · intro cfg app sensor now r c n v hm
    unfold process_tick at hm ⊢
    rcases hpre : tick_pre cfg app sensor now r with ⟨r1, pre⟩
    dsimp only
    rcases hmain : tick_main cfg app sensor now r1 with ⟨r2, out⟩
    dsimp only
    rw [hpre] at hm
    dsimp only at hm
    rw [hmain] at hm
    dsimp only at hm
    have hmm := tick_main_mute cfg app sensor now r1
    rw [hmain] at hmm
    dsimp only at hmm
    rw [hmm] at hm
    intro hmem
    rcases List.mem_append.mp hmem with h | h
    · have hno := tick_pre_no_on cfg app sensor now r c n v
      rw [hpre] at hno
      exact hno h
    · have hno := tick_main_no_on cfg app sensor now r1 hm c n v
      rw [hmain] at hno
      exact hno h

/-- C8 (witness): the amended theorem applied at the concrete rising edge
(recording starts at `t = 0` on the test configuration with note 56 held):
`mute_until` becomes `0 + countin_duration` and the flag is set. -/
theorem c8_recording_edge_amended_witness :
    (handle_recording_edge testConfig recApp 0 scenarioRouter1).1.state.mute_until
      = 0 + testConfig.countin_duration
    ∧ (handle_recording_edge testConfig recApp 0
        scenarioRouter1).1.state.was_recording = true := by
  have h := c8_recording_edge_amended.1 testConfig recApp 0 scenarioRouter1 rfl rfl
  exact ⟨h.1, h.2.1⟩

lemma run_loop_deadlines (period : ℚ) (s : LoopState) (procs : List ℚ) :
    (run_loop period s procs).map Prod.fst
      = (List.range procs.length).map (fun k : ℕ => s.next_tick + ((k:ℚ) + 1) * period) := by
  induction procs generalizing s with
  | nil => rfl
  | cons proc rest ih =>
    unfold run_loop loop_cycle
    dsimp only
    rw [List.map_cons, ih]
    rw [List.length_cons, List.range_succ_eq_map, List.map_cons, List.map_map]
    refine List.cons_eq_cons.mpr ⟨?_, ?_⟩
    · push_cast
      ring
    · apply List.map_congr_left
      intro a _
      dsimp only [Function.comp]
      push_cast
      ring

lemma run_loop_length (period : ℚ) (s : LoopState) (procs : List ℚ) :
    (run_loop period s procs).length = procs.length := by
  induction procs generalizing s with
  | nil => rfl
  | cons proc rest ih =>
    unfold run_loop loop_cycle
    dsimp only
    rw [List.length_cons, ih, List.length_cons]

lemma run_loop_burst (period : ℚ) (s : LoopState) (p1 : ℚ) (rest : List ℚ)
    (hp : 0 ≤ period) (hover : s.next_tick + 2 * period ≤ s.now + p1) :
    ((run_loop period s (p1 :: 0 :: rest)).map Prod.snd).take 2 = [0, 0] := by
  unfold run_loop loop_cycle
  dsimp only
  rw [show max 0 (s.next_tick + period - (s.now + p1)) = 0 from
    max_eq_left (by linarith)]
  unfold run_loop loop_cycle
  dsimp only
  rw [show max 0 (s.next_tick + period + period - (s.now + p1 + 0 + 0)) = 0 from
    max_eq_left (by linarith)]
  simp

/-- C9 (counterexample): the grid IS caught up by bursting multiple ticks.
With period 1 starting at `t = 0`, a single tick body that takes 2.5
periods is followed by TWO consecutive cycles that fire immediately with
zero sleep (deadlines 1 and 2), and only the third backlogged cycle
(deadline 3) sleeps again — the missed deadlines are executed late
back-to-back, not skipped forward by the grid math. -/
theorem c9_burst_counterexample :
    run_loop 1 ⟨0, 0⟩ [5/2, 0, 0] = [(1, 0), (2, 0), (3, 1/2)] := by
  unfold run_loop loop_cycle
  dsimp only
  rw [show max (0:ℚ) (0 + 1 - (0 + 5/2)) = 0 from max_eq_left (by norm_num)]
  unfold run_loop loop_cycle
  dsimp only
  rw [show max (0:ℚ) (0 + 1 + 1 - (0 + 5/2 + 0 + 0)) = 0 from
    max_eq_left (by norm_num)]
  unfold run_loop loop_cycle
  dsimp only
  rw [show max (0:ℚ) (0 + 1 + 1 + 1 - (0 + 5/2 + 0 + 0 + 0 + 0)) = 1/2 from by
    rw [max_eq_right (by norm_num : (0:ℚ) ≤ 0 + 1 + 1 + 1 - (0 + 5/2 + 0 + 0 + 0 + 0))]
    norm_num]
  norm_num [run_loop]

/-- C9 (amended): the fixed-rate loop keeps its deadlines on the exact
arithmetic grid `deadline[n] = next_tick₀ + (n+1)·period`, independent of
the processing durations (never recomputed from `now + period`); each
cycle sleeps `max(0, deadline - now)`, and a cycle whose deadline has
already passed fires immediately with zero sleep; every cycle advances the
grid by exactly one period (one tick per grid point — no tick is skipped
or replayed); and after a single overrun spanning two or more periods, the
following cycles fire back-to-back with zero sleep until the grid catches
up (the backlog IS worked off by bursting, contrary to the claim; see the
counterexample). -/
theorem c9_fixed_grid_amended :
    (∀ (period : ℚ) (s : LoopState) (procs : List ℚ),
      (run_loop period s procs).map Prod.fst
        = (List.range procs.length).map
            (fun k : ℕ => s.next_tick + ((k:ℚ) + 1) * period))
    ∧ (∀ (period proc : ℚ) (s : LoopState),
      (loop_cycle period proc s).2.2
        = max 0 ((loop_cycle period proc s).2.1 - (s.now + proc)))
    ∧ (∀ (period proc : ℚ) (s : LoopState),
      (loop_cycle period proc s).2.1 ≤ s.now + proc →
      (loop_cycle period proc s).2.2 = 0)
    ∧ (∀ (period : ℚ) (s : LoopState) (procs : List ℚ),
      (run_loop period s procs).length = procs.length)
    ∧ (∀ (period : ℚ) (s : LoopState) (p1 p2 : List ℚ), p1.length = p2.length →
      (run_loop period s p1).map Prod.fst = (run_loop period s p2).map Prod.fst)
    ∧ (∀ (period : ℚ) (s : LoopState) (p1 : ℚ) (rest : List ℚ),
      0 ≤ period → s.next_tick + 2 * period ≤ s.now + p1 →
      ((run_loop period s (p1 :: 0 :: rest)).map Prod.snd).take 2 = [0, 0]) := by
  refine ⟨run_loop_deadlines, fun period proc s => rfl, ?_, run_loop_length,
    ?_, run_loop_burst⟩
  · intro period proc s h
    dsimp only [loop_cycle] at h ⊢
    exact max_eq_left (by linarith)
  · intro period s p1 p2 h
    rw [run_loop_deadlines, run_loop_deadlines, h]

/-- C9 (witness): the amended theorem applied concretely — with period 1,
a cycle at `now = 0` whose body took 2 seconds (deadline 1 already past)
sleeps 0, and in the run `[5/2, 0, 0]` from `t = 0` the first two cycles
both sleep 0. -/
theorem c9_fixed_grid_amended_witness :
    (loop_cycle 1 2 ⟨0, 0⟩).2.2 = 0
    ∧ ((run_loop 1 ⟨0, 0⟩ [5/2, 0, 0]).map Prod.snd).take 2 = [0, 0] := by
  constructor
  · exact c9_fixed_grid_amended.2.2.1 1 2 ⟨0, 0⟩ (by norm_num [loop_cycle])
  · exact c9_fixed_grid_amended.2.2.2.2.2 1 ⟨0, 0⟩ (5/2) [0] (by norm_num)
      (by norm_num)
